import Mathlib

/-
Verification of the medlingua symptom-to-condition inference engine.

This file is a shallow embedding, in Lean 4, of the parts of the code base
that the specification's claims are about: the symptom extractor's exact
keyword pass (advanced_diagnosis.py), the serious-condition analyzer
(serious_condition_analyzer.py), the diagnosis generator and its emergency
check (advanced_diagnosis.py), the Bayesian, decision-tree and BERT-emulation
scoring strategies (advanced_diagnosis_system.py, medical_bert_emulation.py)
and the consolidation engine (advanced_diagnosis_system.py).

Conventions of the embedding:
* Python float arithmetic on the small decimal constants of the tables is
  modelled exactly by `Rat`; every decimal literal below is the literal that
  appears in the source.
* Python dicts that are built by insertion and then iterated are modelled as
  association lists in insertion order; a dict update is an in-place update
  of the unique entry with that key.
* Python's `sorted(..., reverse=True)` (a stable sort) is modelled by a
  stable insertion sort on the same key.
* Python's `random.choice` has no counterpart in a pure embedding; functions
  that call it take the chosen index as an explicit extra argument, so that
  dependence on the hidden random state becomes dependence on that argument.
-/

/- The Batteries rational-number operations are marked irreducible, which
blocks the elaborator from evaluating concrete arithmetic inside `decide`
goals; re-marking them semireducible only restores elaborator unfolding
(kernel reduction, which checks every proof below, never honoured the
attribute anyway). -/
set_option allowUnsafeReducibility true in
attribute [semireducible] Rat.add Rat.mul Rat.sub Rat.inv Rat.ofScientific

/-- ASCII lower-casing, as Python str.lower() acts on the ASCII texts handled
here. -/
def pyLower (s : String) : String := ⟨s.data.map Char.toLower⟩

/-- The ASCII whitespace characters stripped by Python str.strip(). -/
def isPyWhitespace (c : Char) : Bool :=
  c = ' ' || c = '\t' || c = '\n' || c = '\r' || c = '\x0b' || c = '\x0c'

/-- Python str.strip(): remove leading and trailing whitespace. -/
def pyStrip (s : String) : String :=
  ⟨((s.data.dropWhile isPyWhitespace).reverse.dropWhile isPyWhitespace).reverse⟩

/-- Python str.rstrip(", "): remove trailing commas and spaces. -/
def pyRStripCommaSpace (s : String) : String :=
  ⟨(s.data.reverse.dropWhile (fun c => c = ',' || c = ' ')).reverse⟩

/-- Python str.replace("_", " "). -/
def replaceUnderscores (s : String) : String :=
  ⟨s.data.map (fun c => if c = '_' then ' ' else c)⟩

/-- Python str.replace(" ", "_") composed with str.lower(): the
`name.lower().replace(" ", "_")` idiom that turns a display name into a
condition identifier. -/
def conditionId (name : String) : String :=
  ⟨(pyLower name).data.map (fun c => if c = ' ' then '_' else c)⟩

/-- Python `needle in hay`: substring containment. -/
def strContains (hay needle : String) : Bool :=
  (List.range (hay.data.length + 1)).any
    (fun i => (hay.data.drop i).take needle.data.length == needle.data)

/-- A regex word character, `\w` over the ASCII texts handled here. -/
def isWordChar (c : Char) : Bool := c.isAlphanum || c = '_'

/-- One candidate position of the regex `\b k \b` in text `t`: the keyword's
characters occur at index `i` and are not flanked by word characters.  This
encodes `\b` for the keywords of the embedded lexicons, all of which begin
and end with a word character. -/
def wordBoundedAt (t k : List Char) (i : Nat) : Bool :=
  ((t.drop i).take k.length == k)
  && (i == 0 || !isWordChar (t.getD (i - 1) ' '))
  && (i + k.length == t.length || !isWordChar (t.getD (i + k.length) ' '))

/-- Python `re.search(r"\b" + re.escape(kw) + r"\b", text)` viewed as a
Boolean: is there a whole-word occurrence of `kw` in `text`? -/
def wholeWordSearch (kw text : String) : Bool :=
  (List.range (text.data.length + 1)).any (wordBoundedAt text.data kw.data)

/-- Number of whole-word occurrences of `kw` in `text` (counted by start
position). -/
def countWholeWordHits (kw text : String) : Nat :=
  (List.range (text.data.length + 1)).countP (wordBoundedAt text.data kw.data)

/-- First-match lookup in an association list (the value a Python dict holds
for a key, when the list has one entry per key). -/
def alookup {α : Type} (k : String) : List (String × α) → Option α
  | [] => none
  | p :: ps => if p.1 = k then some p.2 else alookup k ps

/-- The Python dict-accumulation step
`if k not in d: d[k] = 0` followed by `d[k] += v`:
update the entry in place if the key is present, otherwise append it. -/
def addScore (l : List (String × Rat)) (k : String) (v : Rat) : List (String × Rat) :=
  if l.any (fun p => p.1 == k) then
    l.map (fun p => if p.1 = k then (p.1, p.2 + v) else p)
  else l ++ [(k, v)]

/-- Update the value stored at key `c0` (a no-op when the key is absent):
the Python idiom `if c0 in d: d[c0] = g(d[c0])`. -/
def updateKey (g : Rat → Rat) (c0 : String) (l : List (String × Rat)) : List (String × Rat) :=
  l.map (fun p => if p.1 = c0 then (p.1, g p.2) else p)

/-- Python `max(d.values()) if d else 1` (the guard used before the
consolidation engine normalizes). -/
def maxValues (l : List (String × Rat)) : Rat :=
  match l with
  | [] => 1
  | p :: ps => ps.foldl (fun m q => max m q.2) p.2

/-- Stable descending insertion: a later element is placed after every earlier
element whose key is ≥ its own, as Python's stable `sorted(reverse=True)`
orders ties. -/
def insertDescBy {α : Type} (key : α → Rat) (x : α) : List α → List α
  | [] => [x]
  | y :: ys => if key x ≤ key y then y :: insertDescBy key x ys else x :: y :: ys

/-- Stable sort by descending key, modelling
`sorted(items, key=..., reverse=True)`. -/
def sortDescBy {α : Type} (key : α → Rat) (l : List α) : List α :=
  l.foldl (fun acc x => insertDescBy key x acc) []

/-- Descending sort of (condition, score) pairs by score. -/
def sortDesc (l : List (String × Rat)) : List (String × Rat) :=
  sortDescBy Prod.snd l

/-- Python round() (round-half-to-even), applied to the exact rational value. -/
def pyRound (q : Rat) : Int :=
  let f := q.floor
  let r := q - (f : Rat)
  if r < 1/2 then f
  else if 1/2 < r then f + 1
  else if f % 2 = 0 then f else f + 1

/-- An entry of `medical_conditions` in enhanced_symptoms_db.py, with the
fields that check_symptom_relationships and generate_advanced_diagnosis read
(key, name, description, symptoms, severity, recommendations).  The
risk_factors, body_systems and typical_duration fields of the source table
are read by no embedded function and are not carried. -/
structure MedCondition where
  key : String
  name : String
  description : String
  symptoms : List String
  severity : String
  recommendations : List String
deriving DecidableEq

/-- A condition match produced by check_symptom_relationships
(enhanced_symptoms_db.py): the dict with keys condition, match_percentage,
matching_symptoms, description, severity, recommendations. -/
structure ConditionMatch where
  condition : String
  match_percentage : Int
  matching_symptoms : List String
  description : String
  severity : String
  recommendations : List String
deriving DecidableEq

/-- The dict returned by generate_advanced_diagnosis (advanced_diagnosis.py). -/
structure AdvancedDiagnosis where
  diagnosis_text : String
  severity : String
  confidence : String
  detected_symptoms : List String
  possible_conditions : List ConditionMatch
  recommendations : List String
deriving DecidableEq

/-- The triple returned by advanced_diagnose_symptoms (advanced_diagnosis.py):
(detected_symptoms, diagnosis_text, additional_info), the last a dict
modelled as a string-keyed association list. -/
structure DiagnoseOutput where
  symptoms : List String
  diagnosis_text : String
  additional_info : List (String × String)
deriving DecidableEq

/-- A condition of the BERT-emulation database
(medical_bert_emulation.py): name, category, symptoms, risk factors,
complications, and an optional description (the hand-written base conditions
have none; the generated ones do). -/
structure BertCondition where
  id : String
  name : String
  category : String
  symptoms : List String
  risk_factors : List String
  complications : List String
  description : Option String
deriving DecidableEq

/-- A BERT-emulation condition after calculate_condition_confidence added its
score and matching symptoms. -/
structure ScoredBertCondition extends BertCondition where
  score : Rat
  matching_symptoms : List String
deriving DecidableEq

/-- An entry of the serious-condition list consumed by the consolidation
engine: its display name and urgency tier ("High" / "Medium" / ...). -/
structure SeriousHit where
  name : String
  urgency : String
deriving DecidableEq

/-- An entry of results["bert_analysis"]["conditions"] as the consolidation
engine reads it: the dict may lack "name" (entry skipped) and may lack
"confidence" (default 0.5). -/
structure BertEntry where
  name : Option String
  confidence : Option Rat
deriving DecidableEq

/-- The strategy outputs consumed by _consolidate_diagnoses
(advanced_diagnosis_system.py).  Each field is the part of the corresponding
results[...] entry that the function reads: for weighted_analysis and the
temporal matching conditions only the per-condition "score" value is read,
so those dicts are flattened to (condition, score) pairs. -/
structure ConsolidateResults where
  detected_symptoms : List String
  bayesian_analysis : List (String × Rat)
  decision_tree_diagnosis : Option String
  weighted_analysis : List (String × Rat)
  symptom_mapping : List (String × Rat)
  temporal_matching_conditions : List (String × Rat)
  serious_conditions : List SeriousHit
  bert_conditions : Option (List BertEntry)
deriving DecidableEq

/-- The decision tree of DecisionTreeDiagnosis (advanced_diagnosis_system.py),
a nesting of Python dicts whose leaves are condition labels.  Every node dict
of the source has one key except the dict under fever/"yes", which has the
two keys "cough" and "nausea"; `node2` records such a two-key dict.  The
traversal reads `list(current_node.keys())[0]`, so only a node's first
question is ever asked and a `node2`'s second entry is preserved dead data,
exactly as in the source. -/
inductive PyTree where
  | leaf : String → PyTree
  | node1 : String → PyTree → PyTree → PyTree
  | node2 : String → PyTree → PyTree → String → PyTree → PyTree → PyTree
deriving DecidableEq

/-- Source: enhanced_symptoms_db.py, `expanded_symptom_keywords` (the exact-keyword lexicon of pass 1). -/
def expanded_symptom_keywords : List (String × List String) := [
  ("headache", ["headache", "head pain", "head ache", "migraine", "head pounding", "head throbbing", "skull pain", "cranial pain", "head pressure", "splitting headache", "severe headache", "constant headache", "head hurts", "temples hurt", "forehead pain"]),
  ("dizziness", ["dizzy", "dizziness", "lightheaded", "lightheadedness", "vertigo", "spinning sensation", "faintness", "feeling faint", "unsteady", "imbalance", "room spinning", "head spinning", "wobbly", "woozy", "disoriented"]),
  ("seizure", ["seizure", "convulsion", "fit", "epileptic attack", "shaking episode", "uncontrolled shaking", "spasms", "twitching episode", "involuntary movements", "loss of consciousness with shaking", "jerking movements", "seizure attack"]),
  ("cough", ["cough", "coughing", "dry cough", "wet cough", "hacking cough", "productive cough", "persistent cough", "chronic cough", "barking cough", "throat clearing", "can\x27t stop coughing", "coughing up phlegm", "coughing up mucus", "coughing fits"]),
  ("shortness_of_breath", ["shortness of breath", "short of breath", "difficulty breathing", "trouble breathing", "can\x27t breathe", "breathing problem", "labored breathing", "heavy breathing", "breathlessness", "out of breath", "gasping for air", "air hunger", "suffocating feeling", "breathe hard", "unable to get enough air"]),
  ("wheezing", ["wheeze", "wheezing", "whistling sound when breathing", "whistling breath", "noisy breathing", "high-pitched breathing sound", "raspy breathing", "breathing sounds like whistle", "chest whistling", "asthmatic breathing"]),
  ("chest_pain", ["chest pain", "chest discomfort", "chest pressure", "chest tightness", "pain in chest", "chest hurts", "heart pain", "angina", "crushing chest sensation", "chest heaviness", "pain radiating to arm", "pain radiating to jaw", "chest squeezing feeling", "heart attack symptoms", "cardiac pain"]),
  ("heart_palpitations", ["palpitations", "heart palpitations", "racing heart", "rapid heartbeat", "heart racing", "heart fluttering", "skipped heartbeat", "irregular heartbeat", "pounding heart", "heart skipping beats", "heart beating fast", "pulse racing", "thumping heart", "heartbeat irregularities"]),
  ("edema", ["edema", "swelling", "puffiness", "fluid retention", "swollen ankles", "swollen feet", "swollen legs", "water retention", "bloated limbs", "puffy ankles", "puffy eyes", "swollen hands", "pitting edema", "swelling in extremities"]),
  ("abdominal_pain", ["abdominal pain", "stomach pain", "belly pain", "stomach ache", "stomachache", "belly ache", "abdominal cramps", "stomach cramps", "gut pain", "abdomen hurts", "pain in gut", "pain in stomach", "pain in abdomen", "abdominal discomfort", "tummy ache", "pain below ribs", "pain above navel"]),
  ("nausea", ["nausea", "nauseated", "feeling sick", "sick to stomach", "queasy", "upset stomach", "stomach queasiness", "want to vomit", "about to throw up", "stomach turning", "urge to vomit", "sick feeling", "green around the gills"]),
  ("diarrhea", ["diarrhea", "loose stools", "watery stools", "runny stools", "frequent bowel movements", "liquid stool", "loose bowel movements", "running to bathroom", "intestinal urgency", "bowel urgency", "uncontrollable bowel movements", "soft stool", "frequent toilet trips"]),
  ("joint_pain", ["joint pain", "painful joints", "aching joints", "joint ache", "sore joints", "joint discomfort", "arthritis pain", "painful knees", "painful elbows", "painful wrists", "painful ankles", "painful shoulders", "stiff and painful joints", "throbbing joints", "joint inflammation"]),
  ("back_pain", ["back pain", "backache", "pain in back", "sore back", "back hurts", "spine pain", "lumbar pain", "lower back pain", "upper back pain", "back discomfort", "spinal pain", "back ache", "achy back", "stiff back", "back spasms"]),
  ("muscle_weakness", ["muscle weakness", "weak muscles", "loss of strength", "decreased strength", "muscles feel weak", "feeble muscles", "muscle fatigue", "lack of muscle power", "muscles giving out", "limb weakness", "arm weakness", "leg weakness", "can\x27t lift", "trouble walking due to weakness", "difficulty standing up"]),
  ("rash", ["rash", "skin rash", "red rash", "itchy rash", "skin eruption", "hives", "welts", "red spots", "skin spots", "bumpy rash", "heat rash", "skin irritation", "dermatitis", "skin inflammation", "scattered bumps", "skin lesions", "blisters", "pustules", "vesicles"]),
  ("itching", ["itching", "itchy skin", "itchiness", "scratching", "skin irritation", "pruritus", "itch", "need to scratch", "persistent itch", "crawling skin sensation", "prickling sensation", "itchy all over", "can\x27t stop scratching", "itching without rash"]),
  ("skin_discoloration", ["skin discoloration", "skin color change", "discolored skin", "abnormal skin color", "skin pigmentation", "darkened skin", "lightened skin", "skin tone change", "jaundice", "yellow skin", "yellowing", "cyanosis", "blue tint to skin", "pale skin", "flushed skin", "redness", "bruising easily"]),
  ("excessive_thirst", ["excessive thirst", "increased thirst", "abnormal thirst", "constantly thirsty", "polydipsia", "drinking a lot", "unusually thirsty", "drinking all the time", "never quenched", "desire to drink", "always needing water", "dehydrated feeling", "unquenchable thirst"]),
  ("heat_intolerance", ["heat intolerance", "can\x27t stand heat", "oversensitive to heat", "uncomfortable in heat", "overheating", "hot flashes", "excessive sweating in heat", "heat sensitivity", "feeling too hot", "abnormal heat sensation", "hot all the time", "sweating easily"]),
  ("weight_changes", ["weight changes", "weight loss", "weight gain", "unexpected weight change", "losing weight without trying", "gaining weight without reason", "unexplained weight loss", "unexplained weight gain", "dropping pounds", "putting on weight", "clothes too loose", "clothes too tight", "weight fluctuation"]),
  ("frequent_urination", ["frequent urination", "peeing often", "urinating frequently", "always going to bathroom", "polyuria", "excessive urination", "bathroom trips all day", "constant need to pee", "using bathroom all the time", "increased urination", "urinating more than usual", "overactive bladder"]),
  ("painful_urination", ["painful urination", "burning urination", "burning when urinating", "stinging urination", "painful peeing", "discomfort while urinating", "urination pain", "dysuria", "urethral pain", "burning sensation when peeing", "pain passing urine", "urination burning"]),
  ("blood_in_urine", ["blood in urine", "bloody urine", "hematuria", "pink urine", "red urine", "coca-cola colored urine", "urinating blood", "blood when peeing", "hemoglobin in urine", "bloody urination", "blood in toilet after urination"]),
  ("menstrual_irregularities", ["menstrual irregularities", "irregular periods", "missed periods", "heavy periods", "absent periods", "amenorrhea", "heavy bleeding", "menorrhagia", "irregular menstrual cycle", "period problems", "menstrual changes", "unpredictable periods", "menstrual spotting", "period pain", "dysmenorrhea", "extremely painful periods"]),
  ("erectile_dysfunction", ["erectile dysfunction", "ED", "impotence", "difficulty getting an erection", "difficulty maintaining an erection", "erectile problems", "sexual dysfunction", "trouble getting hard", "can\x27t maintain erection", "failed erection", "inability to get erect"]),
  ("vaginal_discharge", ["vaginal discharge", "unusual discharge", "abnormal discharge", "increased discharge", "white discharge", "yellow discharge", "green discharge", "foul smelling discharge", "vaginal secretions", "leukorrhea", "vaginal fluid", "discharge with odor", "thick discharge", "watery discharge"]),
  ("anxiety", ["anxiety", "anxious", "worried", "nervous", "on edge", "tense", "uneasy", "apprehensive", "stressed", "panicky", "panic attack", "worry all the time", "racing thoughts", "can\x27t stop worrying", "excessive fear", "nervousness", "anxiety attack", "feeling of dread", "fight or flight feeling"]),
  ("depression", ["depression", "depressed", "feeling down", "sadness", "hopelessness", "low mood", "despair", "melancholy", "joyless", "loss of interest", "anhedonia", "emptiness", "worthlessness", "feeling nothing", "no pleasure in activities", "wanting to die", "suicidal thoughts", "feeling blue", "feeling sad all the time"]),
  ("memory_problems", ["memory problems", "forgetfulness", "forgetting things", "memory loss", "can\x27t remember", "poor memory", "trouble remembering", "difficulty recalling", "amnesia", "memory difficulties", "cognitive decline", "absent-minded", "short-term memory issues", "losing track of things", "having to write everything down to remember"])
]

/-- Source: enhanced_symptoms_db.py, `body_system_symptoms`. -/
def body_system_symptoms : List (String × List String) := [
  ("neurological", ["headache", "dizziness", "seizure", "memory_loss", "confusion", "tremor", "numbness", "tingling", "weakness", "paralysis", "difficulty_speaking", "vision_changes", "hearing_changes", "balance_problems", "coordination_problems", "loss_of_consciousness", "fainting", "vertigo", "migraine", "sensitivity_to_light", "sensitivity_to_sound", "neck_stiffness", "hallucinations", "difficulty_concentrating", "sleep_disturbances", "excessive_sleepiness", "insomnia"]),
  ("respiratory", ["cough", "shortness_of_breath", "wheezing", "chest_tightness", "chest_congestion", "rapid_breathing", "slow_breathing", "painful_breathing", "shallow_breathing", "coughing_up_blood", "coughing_up_mucus", "nasal_congestion", "runny_nose", "sneezing", "sore_throat", "hoarseness", "loss_of_voice", "excessive_sputum", "sleep_apnea", "loud_snoring", "noisy_breathing"]),
  ("cardiovascular", ["chest_pain", "heart_palpitations", "edema", "high_blood_pressure", "low_blood_pressure", "irregular_heartbeat", "rapid_heartbeat", "slow_heartbeat", "cyanosis", "cold_extremities", "leg_pain_when_walking", "varicose_veins", "easy_bruising", "excessive_bleeding", "blood_clots", "difficulty_breathing_when_lying_down", "fatigue_with_exertion"]),
  ("gastrointestinal", ["abdominal_pain", "nausea", "vomiting", "diarrhea", "constipation", "indigestion", "heartburn", "bloating", "gas", "abdominal_distension", "changes_in_appetite", "difficult_swallowing", "painful_swallowing", "regurgitation", "blood_in_stool", "black_tarry_stool", "rectal_bleeding", "hemorrhoids", "rectal_pain", "jaundice", "abdominal_mass", "excessive_belching", "excessive_hiccupping", "fecal_incontinence", "floating_stools", "mucus_in_stool", "undigested_food_in_stool"]),
  ("musculoskeletal", ["joint_pain", "back_pain", "muscle_weakness", "muscle_pain", "bone_pain", "joint_stiffness", "joint_swelling", "joint_redness", "joint_warmth", "muscle_cramps", "muscle_spasms", "muscle_stiffness", "decreased_range_of_motion", "gait_abnormalities", "difficulty_walking", "difficulty_standing", "difficulty_sitting", "joint_instability", "locking_joints", "clicking_joints", "neck_pain", "shoulder_pain", "elbow_pain", "wrist_pain", "hand_pain", "hip_pain", "knee_pain", "ankle_pain", "foot_pain"]),
  ("integumentary", ["rash", "itching", "skin_discoloration", "bruising", "hives", "swelling", "dry_skin", "excessive_sweating", "decreased_sweating", "skin_lesions", "bumps", "blisters", "scaling", "flaking", "excessive_sunburn", "hair_loss", "nail_changes", "easy_bleeding", "slow_wound_healing", "excessive_scar_formation", "changes_in_moles", "skin_growths", "skin_pain", "skin_infections"]),
  ("endocrine", ["excessive_thirst", "heat_intolerance", "weight_changes", "cold_intolerance", "increased_appetite", "decreased_appetite", "excessive_hunger", "excessive_urination", "hair_loss", "excessive_hair_growth", "fatigue", "weakness", "mood_changes", "sleep_disturbances", "menstrual_irregularities", "infertility", "sexual_dysfunction", "breast_enlargement_in_men", "breast_milk_production_when_not_pregnant", "round_face", "buffalo_hump", "central_obesity", "purple_stretch_marks", "excessive_thirst_and_urination"]),
  ("urinary", ["frequent_urination", "painful_urination", "blood_in_urine", "urgent_urination", "nighttime_urination", "difficulty_starting_urination", "weak_urine_stream", "interrupted_urine_stream", "incontinence", "urinary_retention", "cloudy_urine", "foul_smelling_urine", "foamy_urine", "dark_urine", "pelvic_pain", "flank_pain", "genital_pain"]),
  ("reproductive", ["menstrual_irregularities", "erectile_dysfunction", "vaginal_discharge", "painful_intercourse", "genital_itching", "genital_rash", "genital_warts", "testicular_pain", "testicular_swelling", "breast_pain", "breast_lumps", "nipple_discharge", "vaginal_bleeding_between_periods", "heavy_menstrual_bleeding", "absence_of_menstruation", "painful_menstruation", "premenstrual_syndrome", "ovulation_pain", "painful_ejaculation", "blood_in_semen", "decreased_libido", "excessive_libido", "infertility", "pregnancy_complications"]),
  ("psychological", ["anxiety", "depression", "memory_problems", "mood_swings", "irritability", "agitation", "aggression", "suicidal_thoughts", "hallucinations", "delusions", "paranoia", "phobias", "obsessions", "compulsions", "attention_problems", "hyperactivity", "learning_difficulties", "changes_in_personality", "disorientation", "confusion", "disorganized_thinking", "lack_of_motivation", "apathy", "flat_affect", "excessive_worry", "panic_attacks", "flashbacks", "nightmares"]),
  ("sensory", ["blurred_vision", "double_vision", "loss_of_vision", "flashing_lights", "floaters_in_vision", "eye_pain", "eye_redness", "eye_discharge", "dry_eyes", "watery_eyes", "hearing_loss", "ringing_in_ears", "ear_pain", "ear_discharge", "vertigo", "loss_of_smell", "loss_of_taste", "altered_taste", "altered_smell", "excessive_tearing", "sensitivity_to_light", "difficulty_focusing", "night_blindness", "dry_mouth", "excessive_salivation"]),
  ("systemic", ["fever", "chills", "night_sweats", "fatigue", "malaise", "weakness", "unintentional_weight_loss", "unintentional_weight_gain", "loss_of_appetite", "excessive_thirst", "excessive_hunger", "lethargy", "drowsiness", "insomnia", "swollen_lymph_nodes", "easy_bruising", "easy_bleeding", "pallor", "flushing", "delayed_healing", "generalized_edema", "dehydration"])
]

/-- Source: enhanced_symptoms_db.py, `medical_conditions`. Fields used by the diagnosis pipeline (key, name, description, symptoms, severity, recommendations); the risk_factors / body_systems / typical_duration fields are never read by the functions embedded here. -/
def medical_conditions : List MedCondition := [
  ⟨"common_cold", "Common Cold", "A viral infectious disease of the upper respiratory tract primarily caused by rhinoviruses or coronaviruses.", ["cough", "runny_nose", "nasal_congestion", "sore_throat", "sneezing", "fatigue", "headache", "mild_fever"], "mild", ["Rest and stay hydrated", "Use over-the-counter pain relievers if needed", "Use decongestants or cough suppressants for symptom relief", "Use saline nasal spray or rinse for congestion", "Seek medical attention if symptoms worsen or last more than 10 days"]⟩,
  ⟨"influenza", "Influenza (Flu)", "A contagious respiratory illness caused by influenza viruses that infect the nose, throat, and sometimes the lungs.", ["high_fever", "body_aches", "chills", "fatigue", "headache", "cough", "sore_throat", "runny_nose", "nasal_congestion", "vomiting", "diarrhea"], "moderate to severe", ["Rest and stay hydrated", "Take fever reducers and pain relievers", "Antiviral medications if prescribed (most effective within 48 hours)", "Avoid contact with others to prevent spread", "Seek immediate medical attention for difficulty breathing, chest pain, confusion, severe or persistent vomiting, or symptoms that improve then return with fever and worse cough"]⟩,
  ⟨"covid_19", "COVID-19", "A respiratory illness caused by the SARS-CoV-2 virus, ranging from mild to severe.", ["fever", "dry_cough", "fatigue", "shortness_of_breath", "loss_of_taste", "loss_of_smell", "body_aches", "headache", "sore_throat", "congestion", "nausea", "diarrhea"], "mild to severe", ["Follow current public health guidance for isolation and testing", "Rest and stay hydrated", "Take fever reducers like acetaminophen", "Monitor oxygen levels if possible", "Seek immediate medical attention for trouble breathing, persistent chest pain or pressure, confusion, inability to wake or stay awake, or bluish lips or face"]⟩,
  ⟨"migraine", "Migraine", "A neurological condition characterized by intense, debilitating headaches often accompanied by other symptoms.", ["severe_headache", "throbbing_pain", "sensitivity_to_light", "sensitivity_to_sound", "nausea", "vomiting", "visual_disturbances", "aura", "dizziness"], "moderate to severe", ["Rest in a quiet, dark room", "Apply cold compresses to the forehead or neck", "Use over-the-counter or prescription migraine medications", "Stay hydrated and maintain regular sleep patterns", "Identify and avoid personal migraine triggers", "Consider preventive medications for frequent migraines"]⟩,
  ⟨"gastroenteritis", "Gastroenteritis (Stomach Flu)", "Inflammation of the stomach and intestines, typically resulting from viral, bacterial, or parasitic infections.", ["diarrhea", "nausea", "vomiting", "abdominal_pain", "abdominal_cramps", "fever", "headache", "muscle_aches", "dehydration"], "mild to severe", ["Stay hydrated with water, clear broths, or oral rehydration solutions", "Gradually reintroduce bland foods like bananas, rice, applesauce, and toast (BRAT diet)", "Avoid dairy, caffeine, alcohol, and fatty or spicy foods", "Take over-the-counter medications for symptom relief if needed", "Seek medical attention if unable to keep fluids down, bloody stools, high fever, or signs of dehydration"]⟩,
  ⟨"urinary_tract_infection", "Urinary Tract Infection", "An infection in any part of the urinary system, most commonly affecting the bladder and urethra.", ["painful_urination", "frequent_urination", "urgent_urination", "cloudy_urine", "strong_smelling_urine", "pelvic_pain", "lower_abdomen_pain", "blood_in_urine", "fatigue", "fever", "back_pain"], "mild to moderate", ["Antibiotics as prescribed by healthcare provider", "Drink plenty of water to flush out bacteria", "Urinate frequently and completely", "Avoid irritating substances like alcohol and caffeine", "Apply heat to relieve pelvic pain", "Take over-the-counter pain relievers for discomfort", "Seek medical attention if symptoms worsen or don\x27t improve with treatment"]⟩,
  ⟨"hypertension", "Hypertension (High Blood Pressure)", "A common condition in which the long-term force of the blood against artery walls is high enough to potentially cause health problems.", ["often_asymptomatic", "headache", "shortness_of_breath", "nosebleeds", "dizziness", "chest_pain", "visual_changes", "blood_in_urine"], "variable (mild to severe)", ["Follow prescribed medication regimen", "Adopt a heart-healthy diet (low sodium, high fruits/vegetables)", "Maintain a healthy weight", "Exercise regularly (at least 150 minutes per week of moderate activity)", "Limit alcohol consumption", "Quit smoking", "Manage stress", "Monitor blood pressure regularly at home", "Attend regular healthcare provider visits"]⟩,
  ⟨"diabetes_mellitus", "Diabetes Mellitus", "A group of metabolic disorders characterized by high blood sugar levels over a prolonged period.", ["increased_thirst", "frequent_urination", "extreme_hunger", "unexplained_weight_loss", "fatigue", "irritability", "blurred_vision", "slow_healing_sores", "frequent_infections"], "chronic, mild to severe", ["Monitor blood glucose regularly", "Take insulin or oral medications as prescribed", "Follow a balanced diet plan", "Engage in regular physical activity", "Maintain a healthy weight", "Attend regular check-ups for diabetes management", "Monitor for and address complications", "Learn diabetes self-management skills"]⟩,
  ⟨"asthma", "Asthma", "A condition in which the airways narrow, swell, and produce extra mucus, making breathing difficult and triggering coughing, wheezing, and shortness of breath.", ["shortness_of_breath", "wheezing", "chest_tightness", "coughing", "trouble_sleeping_due_to_breathing_difficulty", "fatigue"], "mild to severe", ["Use prescribed long-term control medications regularly", "Have quick-relief medications available for acute symptoms", "Identify and avoid personal asthma triggers", "Follow an asthma action plan", "Use a peak flow meter to monitor breathing", "Get vaccinated against flu and pneumonia", "Treat allergies or GERD if they trigger asthma", "Seek emergency care for severe attacks not responding to rescue inhaler"]⟩,
  ⟨"depression", "Major Depressive Disorder", "A mood disorder causing persistent feelings of sadness and loss of interest, affecting how one feels, thinks, and behaves.", ["persistent_sadness", "loss_of_interest", "changes_in_appetite", "weight_changes", "sleep_disturbances", "fatigue", "feelings_of_worthlessness", "difficulty_concentrating", "suicidal_thoughts"], "mild to severe", ["Seek professional help from mental health specialists", "Consider psychotherapy (talk therapy)", "Take antidepressant medications if prescribed", "Maintain regular physical activity", "Establish consistent sleep patterns", "Build strong social connections", "Learn stress management techniques", "Avoid alcohol and recreational drugs", "Seek immediate help if experiencing suicidal thoughts"]⟩,
  ⟨"osteoarthritis", "Osteoarthritis", "A degenerative joint disease involving the breakdown of joint cartilage and underlying bone.", ["joint_pain", "joint_stiffness", "tenderness", "loss_of_flexibility", "grating_sensation", "bone_spurs", "swelling"], "mild to severe", ["Regular low-impact exercise to strengthen muscles around joints", "Maintain a healthy weight to reduce stress on joints", "Physical therapy for improving range of motion", "Use of assistive devices like canes or walkers if needed", "Pain management with acetaminophen or NSAIDs (as recommended by physician)", "Application of hot or cold packs", "Consider injections or surgical options for severe cases"]⟩
]

/-- Source: serious_condition_analyzer.py, `SYMPTOM_KEYWORDS`. The Python dict literal repeats the key "chest_pain"; as in Python, the later value wins and the key keeps its first position. -/
def SYMPTOM_KEYWORDS : List (String × List String) := [
  ("chest_pain", ["chest pain", "chest discomfort", "chest pressure", "chest tightness"]),
  ("left_arm_pain", ["left arm pain", "arm pain", "pain radiating to arm", "left arm discomfort"]),
  ("shortness_of_breath", ["shortness of breath", "difficulty breathing", "can\x27t breathe", "hard to breathe", "breathlessness", "trouble breathing"]),
  ("sudden_shortness_of_breath", ["sudden shortness of breath", "suddenly can\x27t breathe", "abruptly hard to breathe"]),
  ("sweating", ["sweating", "cold sweat", "perspiration", "clammy", "diaphoresis"]),
  ("nausea", ["nausea", "feeling sick", "queasy", "want to vomit", "sick to stomach"]),
  ("jaw_pain", ["jaw pain", "pain in jaw", "jaw discomfort", "pain radiating to jaw"]),
  ("upper_back_pain", ["upper back pain", "pain between shoulder blades", "upper back discomfort"]),
  ("dizziness", ["dizziness", "lightheaded", "light headed", "feel faint", "vertigo", "room spinning"]),
  ("fatigue", ["fatigue", "extreme tiredness", "exhaustion", "no energy", "weakness"]),
  ("sudden_numbness", ["sudden numbness", "numbness", "can\x27t feel", "loss of sensation", "tingling"]),
  ("facial_drooping", ["face drooping", "facial droop", "droopy face", "face dropped", "drooping mouth"]),
  ("arm_weakness", ["arm weakness", "weak arm", "can\x27t lift arm", "arm feels heavy"]),
  ("speech_difficulty", ["speech difficulty", "slurred speech", "trouble speaking", "can\x27t speak clearly", "words not coming out right"]),
  ("sudden_confusion", ["sudden confusion", "confused", "disoriented", "not making sense", "altered mental status"]),
  ("sudden_headache", ["sudden headache", "worst headache", "thunderclap headache", "explosive headache", "severe headache"]),
  ("vision_problems", ["vision problems", "blurred vision", "double vision", "loss of vision", "blind spot", "can\x27t see"]),
  ("loss_of_balance", ["loss of balance", "unsteady", "can\x27t stand", "falling over", "coordination problem", "unstable when walking"]),
  ("cough", ["cough", "coughing", "persistent cough", "dry cough", "hacking cough"]),
  ("coughing_up_blood", ["coughing up blood", "blood in phlegm", "blood in sputum", "hemoptysis"]),
  ("rapid_heartbeat", ["rapid heartbeat", "racing heart", "heart racing", "palpitations", "heart pounding", "fast pulse"]),
  ("fever", ["fever", "elevated temperature", "feeling hot", "high temperature", "feverish"]),
  ("high_fever", ["high fever", "temperature above 102", "very high temperature", "severe fever"]),
  ("chills", ["chills", "shivering", "feeling cold", "body shakes", "rigors"]),
  ("rapid_breathing", ["rapid breathing", "breathing fast", "shortness of breath", "hyperventilation", "tachypnea"]),
  ("confusion", ["confusion", "disoriented", "not making sense", "altered mental status", "delirium"]),
  ("extreme_pain", ["extreme pain", "worst pain", "severe pain", "agonizing pain", "excruciating pain"]),
  ("clammy_skin", ["clammy skin", "cold skin", "damp skin", "cold and sweaty"]),
  ("hives", ["hives", "welts", "raised bumps", "urticaria", "itchy rash"]),
  ("itching", ["itching", "itchiness", "scratchy", "pruritus"]),
  ("swelling", ["swelling", "puffiness", "edema", "bloating", "facial swelling", "swollen lips", "swollen tongue"]),
  ("difficulty_breathing", ["difficulty breathing", "shortness of breath", "can\x27t breathe", "trouble breathing", "breathlessness"]),
  ("throat_tightness", ["throat tightness", "tight throat", "throat closing", "choking sensation", "throat swelling"]),
  ("vomiting", ["vomiting", "throwing up", "getting sick", "emesis"]),
  ("fainting", ["fainting", "passed out", "loss of consciousness", "blackout", "syncope"]),
  ("sudden_high_fever", ["sudden high fever", "fever that came on quickly", "rapid onset fever"]),
  ("severe_headache", ["severe headache", "terrible headache", "pounding headache", "throbbing head pain"]),
  ("stiff_neck", ["stiff neck", "neck stiffness", "can\x27t bend neck", "painful to move neck", "rigid neck"]),
  ("sensitivity_to_light", ["sensitivity to light", "light hurts eyes", "photophobia", "light bothers me"]),
  ("seizures", ["seizures", "convulsions", "fits", "shaking episode", "epileptic episode"]),
  ("rash", ["rash", "skin outbreak", "red spots", "skin lesions", "spots on skin"]),
  ("abdominal_pain", ["abdominal pain", "stomach pain", "belly pain", "stomach ache", "abdominal cramps"]),
  ("right_lower_abdominal_pain", ["right lower abdominal pain", "right lower quadrant pain", "pain in lower right abdomen", "pain in right side of abdomen"]),
  ("loss_of_appetite", ["loss of appetite", "not hungry", "don\x27t want to eat", "anorexia", "no appetite"]),
  ("low_grade_fever", ["low grade fever", "slight fever", "mild fever", "temperature slightly elevated"]),
  ("abdominal_swelling", ["abdominal swelling", "stomach bloating", "belly distension", "swollen abdomen"]),
  ("excessive_thirst", ["excessive thirst", "very thirsty", "unquenchable thirst", "polydipsia"]),
  ("frequent_urination", ["frequent urination", "peeing a lot", "polyuria", "urinating often"]),
  ("fruity_breath", ["fruity breath", "sweet smelling breath", "acetone breath", "breath smells like fruit"]),
  ("sudden_severe_headache", ["sudden severe headache", "worst headache ever", "thunderclap headache", "explosive headache"]),
  ("altered_consciousness", ["altered consciousness", "decreased alertness", "stupor", "lethargy", "not responding normally"]),
  ("weakness_on_one_side", ["weakness on one side", "one-sided weakness", "hemiparesis", "weak on left/right side"]),
  ("sudden_severe_chest_pain", ["sudden severe chest pain", "ripping chest pain", "tearing pain in chest", "worst chest pain ever"]),
  ("severe_back_pain", ["severe back pain", "terrible back pain", "worst back pain", "ripping back pain", "tearing back pain"]),
  ("severe_abdominal_pain", ["severe abdominal pain", "terrible stomach pain", "worst abdominal pain", "excruciating belly pain"]),
  ("loss_of_consciousness", ["loss of consciousness", "passed out", "fainted", "blacked out", "syncope"]),
  ("abdominal_cramping", ["abdominal cramping", "stomach cramps", "belly cramps", "intestinal cramps"]),
  ("bloating", ["bloating", "feeling bloated", "distended abdomen", "swollen belly"]),
  ("inability_to_pass_gas", ["inability to pass gas", "can\x27t pass gas", "can\x27t fart", "no gas movement"]),
  ("constipation", ["constipation", "can\x27t have bowel movement", "no bowel movement", "unable to defecate"]),
  ("diarrhea", ["diarrhea", "loose stools", "watery stools", "frequent bowel movements"]),
  ("loud_bowel_sounds", ["loud bowel sounds", "stomach gurgling", "abdominal noises", "hyperactive bowel sounds"]),
  ("upper_abdominal_pain", ["upper abdominal pain", "pain in upper stomach", "epigastric pain", "pain below ribs"]),
  ("abdominal_pain_radiating_to_back", ["abdominal pain radiating to back", "stomach pain going to back", "belly pain extends to back"]),
  ("tenderness_when_touching_abdomen", ["tender abdomen", "pain when pressing on abdomen", "abdomen hurts to touch"]),
  ("severe_anxiety", ["severe anxiety", "extreme worry", "panic", "overwhelming fear"]),
  ("nosebleeds", ["nosebleeds", "bleeding from nose", "epistaxis"]),
  ("extreme_thirst", ["extreme thirst", "severe thirst", "insatiable thirst", "very thirsty"]),
  ("dry_mouth", ["dry mouth", "mouth dryness", "parched mouth", "not enough saliva"]),
  ("little_or_no_urination", ["little urination", "no urination", "not peeing", "oliguria", "anuria"]),
  ("dark_urine", ["dark urine", "concentrated urine", "dark yellow urine", "brown urine"]),
  ("sunken_eyes", ["sunken eyes", "eyes look hollow", "eyes seem receded"]),
  ("lethargy", ["lethargy", "excessive sleepiness", "hard to wake up", "unusually tired", "listless"])
]

/-- Source: advanced_diagnosis.py, `emergency_symptoms` inside generate_advanced_diagnosis. -/
def emergency_symptoms : List (String × String) := [
  ("chest_pain", "Chest pain can be a sign of a serious condition such as a heart attack or pulmonary issue. Please seek immediate medical attention."),
  ("heart_attack_symptoms", "Your symptoms may indicate a heart attack. Please seek emergency medical attention immediately."),
  ("severe_headache", "A sudden, severe headache could indicate a serious condition. Please seek immediate medical attention, especially if accompanied by confusion, stiff neck, or vision changes."),
  ("shortness_of_breath", "Severe difficulty breathing may indicate a serious condition. Please seek immediate medical attention."),
  ("stroke_symptoms", "Your symptoms may indicate a stroke. Please seek emergency medical attention immediately."),
  ("anaphylaxis", "Your symptoms suggest a severe allergic reaction. Please seek emergency medical attention immediately."),
  ("seizure", "Seizures require immediate medical evaluation. Please seek emergency medical care."),
  ("severe_abdominal_pain", "Severe abdominal pain, especially if sudden and accompanied by other symptoms, may indicate a serious condition requiring immediate medical attention.")
]

/-- Source: advanced_diagnosis.py, `system_advice` inside generate_advanced_diagnosis. -/
def system_advice : List (String × String) := [
  ("respiratory", "Respiratory issues can be caused by infections, allergies, or underlying conditions. Rest, stay hydrated, and monitor your breathing. If you experience severe shortness of breath, seek immediate medical attention."),
  ("gastrointestinal", "Digestive issues can be caused by infections, food intolerance, or inflammatory conditions. Try eating bland foods, staying hydrated, and avoiding trigger foods. If symptoms are severe or persistent, consult a healthcare provider."),
  ("neurological", "Neurological symptoms should be taken seriously. Rest, avoid triggers like bright lights or screens if they worsen symptoms, and consider over-the-counter pain relievers if appropriate. If symptoms are severe or unusual, consult a healthcare provider."),
  ("musculoskeletal", "Musculoskeletal pain may be due to strain, inflammation, or injury. Rest the affected area, apply ice for acute pain or heat for chronic pain, and consider over-the-counter pain relievers. If pain is severe or persistent, consult a healthcare provider."),
  ("cardiovascular", "Cardiovascular symptoms should be evaluated by a healthcare professional. If you experience chest pain, especially with shortness of breath, sweating, or pain radiating to the arm or jaw, seek immediate medical attention."),
  ("integumentary", "Skin issues can be caused by allergies, infections, or inflammatory conditions. Avoid scratching, use mild soaps, and consider over-the-counter antihistamines or hydrocortisone cream for mild symptoms. If symptoms are severe or spreading, consult a healthcare provider.")
]

/-- Source: advanced_diagnosis_system.py, `BayesianMedicalModel.__init__`, `condition_prior`. -/
def condition_prior : List (String × Rat) := [
  ("common_cold", (0.15 : Rat)),
  ("influenza", (0.08 : Rat)),
  ("allergies", (0.12 : Rat)),
  ("migraine", (0.06 : Rat)),
  ("gastroenteritis", (0.07 : Rat)),
  ("urinary_tract_infection", (0.05 : Rat)),
  ("anxiety", (0.1 : Rat)),
  ("pneumonia", (0.03 : Rat)),
  ("bronchitis", (0.04 : Rat)),
  ("sinusitis", (0.07 : Rat)),
  ("anemia", (0.04 : Rat)),
  ("diabetes", (0.06 : Rat)),
  ("hypertension", (0.12 : Rat)),
  ("asthma", (0.05 : Rat)),
  ("arthritis", (0.08 : Rat))
]

/-- Source: advanced_diagnosis_system.py, `BayesianMedicalModel._initialize_conditional_probs`: the table P(symptom | condition). -/
def symptom_given_condition : List (String × List (String × Rat)) := [
  ("common_cold", [("cough", (0.85 : Rat)), ("congestion", (0.9 : Rat)), ("runny_nose", (0.95 : Rat)), ("sore_throat", (0.7 : Rat)), ("fever", (0.3 : Rat)), ("headache", (0.4 : Rat))]),
  ("influenza", [("fever", (0.9 : Rat)), ("cough", (0.8 : Rat)), ("body_ache", (0.85 : Rat)), ("fatigue", (0.95 : Rat)), ("headache", (0.8 : Rat)), ("chills", (0.75 : Rat))]),
  ("allergies", [("runny_nose", (0.9 : Rat)), ("congestion", (0.85 : Rat)), ("sneezing", (0.95 : Rat)), ("itchy_eyes", (0.8 : Rat)), ("cough", (0.4 : Rat))]),
  ("migraine", [("headache", (0.98 : Rat)), ("nausea", (0.7 : Rat)), ("light_sensitivity", (0.8 : Rat)), ("sound_sensitivity", (0.75 : Rat)), ("visual_disturbances", (0.6 : Rat))]),
  ("gastroenteritis", [("nausea", (0.85 : Rat)), ("vomiting", (0.75 : Rat)), ("diarrhea", (0.9 : Rat)), ("abdominal_pain", (0.8 : Rat)), ("fever", (0.4 : Rat))]),
  ("urinary_tract_infection", [("frequent_urination", (0.9 : Rat)), ("painful_urination", (0.95 : Rat)), ("abdominal_pain", (0.6 : Rat)), ("fever", (0.3 : Rat))]),
  ("anxiety", [("restlessness", (0.85 : Rat)), ("worry", (0.95 : Rat)), ("rapid_heart_rate", (0.7 : Rat)), ("difficulty_sleeping", (0.75 : Rat)), ("fatigue", (0.65 : Rat))]),
  ("pneumonia", [("cough", (0.95 : Rat)), ("fever", (0.9 : Rat)), ("shortness_of_breath", (0.85 : Rat)), ("chest_pain", (0.7 : Rat)), ("fatigue", (0.8 : Rat))]),
  ("bronchitis", [("cough", (0.95 : Rat)), ("mucus", (0.85 : Rat)), ("fatigue", (0.75 : Rat)), ("shortness_of_breath", (0.7 : Rat)), ("chest_discomfort", (0.65 : Rat))]),
  ("sinusitis", [("facial_pain", (0.8 : Rat)), ("congestion", (0.9 : Rat)), ("headache", (0.75 : Rat)), ("cough", (0.5 : Rat)), ("post_nasal_drip", (0.85 : Rat))]),
  ("anemia", [("fatigue", (0.95 : Rat)), ("weakness", (0.85 : Rat)), ("pale_skin", (0.75 : Rat)), ("shortness_of_breath", (0.65 : Rat)), ("dizziness", (0.6 : Rat))]),
  ("diabetes", [("increased_thirst", (0.9 : Rat)), ("frequent_urination", (0.85 : Rat)), ("increased_hunger", (0.8 : Rat)), ("weight_loss", (0.7 : Rat)), ("fatigue", (0.75 : Rat))]),
  ("hypertension", [("headache", (0.4 : Rat)), ("dizziness", (0.35 : Rat)), ("chest_pain", (0.3 : Rat)), ("shortness_of_breath", (0.25 : Rat)), ("nosebleeds", (0.2 : Rat))]),
  ("asthma", [("wheezing", (0.9 : Rat)), ("shortness_of_breath", (0.85 : Rat)), ("chest_tightness", (0.8 : Rat)), ("cough", (0.75 : Rat)), ("trouble_sleeping", (0.6 : Rat))]),
  ("arthritis", [("joint_pain", (0.95 : Rat)), ("stiffness", (0.85 : Rat)), ("swelling", (0.75 : Rat)), ("decreased_range_of_motion", (0.8 : Rat)), ("fatigue", (0.5 : Rat))])
]


/-- Source: medical_bert_emulation.py, `base_conditions` inside generate_large_scale_condition_database: the hand-written conditions of the BERT-emulation database (the remaining ~100,000 entries are generated at import time with the unseeded `random` module and are therefore not a fixed table). The base conditions carry no description field. -/
def base_conditions : List BertCondition := [
  ⟨"bacterial_pneumonia", "Bacterial Pneumonia", "Infectious Diseases", ["fever", "productive_cough", "chest_pain", "shortness_of_breath", "fatigue"], ["weakened_immune_system", "advanced_age", "smoking", "chronic_lung_disease"], ["respiratory_failure", "bacteremia", "lung_abscess", "pleural_effusion"], none⟩,
  ⟨"viral_gastroenteritis", "Viral Gastroenteritis", "Infectious Diseases", ["diarrhea", "nausea", "vomiting", "abdominal_cramps", "fever", "headache"], ["contaminated_food_or_water", "close_contact_with_infected_person", "weakened_immune_system"], ["dehydration", "electrolyte_imbalance"], none⟩,
  ⟨"myocardial_infarction", "Myocardial Infarction (Heart Attack)", "Cardiovascular Disorders", ["chest_pain", "shortness_of_breath", "pain_in_arms", "cold_sweat", "nausea", "lightheadedness"], ["hypertension", "high_cholesterol", "smoking", "diabetes", "family_history", "obesity", "stress"], ["heart_failure", "arrhythmias", "cardiogenic_shock", "cardiac_arrest", "valve_problems"], none⟩,
  ⟨"atrial_fibrillation", "Atrial Fibrillation", "Cardiovascular Disorders", ["heart_palpitations", "fatigue", "reduced_exercise_capacity", "shortness_of_breath", "chest_pain", "dizziness"], ["hypertension", "heart_disease", "advanced_age", "obesity", "diabetes", "alcohol_consumption", "hyperthyroidism"], ["stroke", "heart_failure", "blood_clots"], none⟩,
  ⟨"chronic_obstructive_pulmonary_disease", "Chronic Obstructive Pulmonary Disease (COPD)", "Respiratory Conditions", ["shortness_of_breath", "chronic_cough", "wheezing", "chest_tightness", "fatigue", "frequent_respiratory_infections"], ["smoking", "long_term_exposure_to_air_pollutants", "genetic_factors", "advanced_age"], ["respiratory_infections", "heart_problems", "lung_cancer", "pulmonary_hypertension", "depression"], none⟩,
  ⟨"asthma", "Asthma", "Respiratory Conditions", ["wheezing", "shortness_of_breath", "chest_tightness", "coughing", "difficulty_sleeping_due_to_breathing_problems"], ["allergies", "family_history", "obesity", "smoking", "air_pollution", "respiratory_infections"], ["permanent_narrowing_of_airways", "side_effects_from_medications", "fatigue", "stress", "anxiety"], none⟩,
  ⟨"peptic_ulcer_disease", "Peptic Ulcer Disease", "Gastrointestinal Disorders", ["abdominal_pain", "burning_stomach_pain", "feeling_of_fullness", "bloating", "heartburn", "nausea", "intolerance_to_fatty_foods"], ["h_pylori_infection", "nsaid_use", "smoking", "alcohol_consumption", "stress"], ["internal_bleeding", "perforation", "obstruction", "peritonitis"], none⟩,
  ⟨"irritable_bowel_syndrome", "Irritable Bowel Syndrome (IBS)", "Gastrointestinal Disorders", ["abdominal_pain", "cramping", "bloating", "gas", "diarrhea", "constipation", "mucus_in_stool"], ["food_intolerance", "stress", "hormonal_changes", "genetic_factors", "intestinal_inflammation"], ["poor_quality_of_life", "psychological_distress", "malnutrition"], none⟩,
  ⟨"migraine", "Migraine", "Neurological Disorders", ["severe_headache", "throbbing_pain", "sensitivity_to_light", "sensitivity_to_sound", "nausea", "vomiting", "aura"], ["family_history", "hormonal_changes", "stress", "certain_foods", "sleep_disturbances", "environmental_factors"], ["chronic_migraine", "status_migrainosus", "persistent_aura", "migrainous_infarction"], none⟩,
  ⟨"epilepsy", "Epilepsy", "Neurological Disorders", ["seizures", "temporary_confusion", "staring_spells", "uncontrollable_jerking_movements", "loss_of_consciousness", "anxiety", "cognitive_dysfunction"], ["genetic_predisposition", "head_trauma", "brain_conditions", "infectious_diseases", "developmental_disorders", "prenatal_injury"], ["status_epilepticus", "sudden_unexplained_death", "drowning", "emotional_health_issues", "pregnancy_complications"], none⟩
]

/-- Shallow embedding of the empty-input guard of advanced_diagnose_symptoms
(advanced_diagnosis.py, lines 354-368): `if not transcript or
len(transcript.strip()) == 0` return the fixed request for more details.
Inputs that pass the guard flow into the multilingual detection and diagnosis
pipeline, abstracted here as the parameter `rest`; the guard returns before
reaching it on the inputs this embedding is used to reason about. -/
def advanced_diagnose_symptoms (rest : String → DiagnoseOutput) (transcript : String) :
    DiagnoseOutput :=
  if transcript = "" ∨ pyStrip transcript = "" then
    { symptoms := []
      diagnosis_text := "Please provide some details about your symptoms."
      additional_info := [] }
  else rest transcript

/-- Pass 1 of advanced_symptom_detection (advanced_diagnosis.py, lines 40-50):
for each symptom of the lexicon and each of its keyword variants, a whole-word
regex search over the lowercased transcript; on a hit the symptom's
accumulated confidence is increased by 1 (`re.search` reports presence, not
the number of occurrences, so each variant contributes at most once). -/
def exact_keyword_pass (lexicon : List (String × List String)) (transcript_lower : String) :
    List (String × Rat) :=
  lexicon.foldl (fun acc sk =>
    sk.2.foldl
      (fun acc2 kw => if wholeWordSearch kw transcript_lower then addScore acc2 sk.1 1 else acc2)
      acc) []

/-- The confidence the detection dict holds for a symptom (0 when absent). -/
def weightOf (sym : String) (l : List (String × Rat)) : Rat := (alookup sym l).getD 0

/-- Shallow embedding of detect_serious_symptoms
(serious_condition_analyzer.py, lines 235-255): for each symptom of
SYMPTOM_KEYWORDS, scan its keyword list and on the first keyword contained in
the lowercased transcript (plain substring containment, `keyword.lower() in
transcript_lower`) record (symptom, keyword) and break. -/
def detect_serious_symptoms (transcript : String) : List (String × String) :=
  SYMPTOM_KEYWORDS.foldl (fun acc sk =>
    match sk.2.find? (fun kw => strContains (pyLower transcript) (pyLower kw)) with
    | some kw => acc ++ [(sk.1, kw)]
    | none => acc) []

/-- Shallow embedding of check_symptom_relationships (enhanced_symptoms_db.py,
lines 659-695).  A condition is retained when at least 2 of its symptoms are
among the patient's and they are at least 30% of the condition's symptoms;
retained conditions are sorted by descending rounded match percentage and the
top 3 returned.  The source materializes matching_symptoms as
`list(set.intersection(...))`, whose order is interpreter-dependent; here the
condition's own symptom order is used (no embedded function reads the order). -/
def check_symptom_relationships (symptoms : List String) : List ConditionMatch :=
  let possible := medical_conditions.foldl (fun acc cond =>
    let matching := cond.symptoms.filter (fun s => s ∈ symptoms)
    let n := cond.symptoms.length
    if 2 ≤ matching.length ∧ (3 : Rat) / 10 ≤ (matching.length : Rat) / (n : Rat) then
      acc ++ [{ condition := cond.name
                match_percentage := pyRound ((matching.length : Rat) / (n : Rat) * 100)
                matching_symptoms := matching
                description := cond.description
                severity := cond.severity
                recommendations := cond.recommendations }]
    else acc) []
  (sortDescBy (fun m => (m.match_percentage : Rat)) possible).take 3

/-- The Python idiom building system_symptoms: append `v` to the list stored
under `k`, creating the entry if absent. -/
def addToKeyList (l : List (String × List String)) (k v : String) :
    List (String × List String) :=
  if l.any (fun p => p.1 == k) then
    l.map (fun p => if p.1 = k then (p.1, p.2 ++ [v]) else p)
  else l ++ [(k, [v])]

/-- Grouping of detected symptoms by body system, as generate_advanced_diagnosis
builds system_symptoms (advanced_diagnosis.py, lines 237-243). -/
def system_symptoms_of (symptoms : List String) : List (String × List String) :=
  symptoms.foldl (fun acc s =>
    body_system_symptoms.foldl
      (fun acc2 sys => if s ∈ sys.2 then addToKeyList acc2 sys.1 s else acc2) acc) []

/-- The primary-system scan of generate_advanced_diagnosis (lines 245-251):
the first system whose symptom count strictly exceeds every earlier count. -/
def primary_system_of (l : List (String × List String)) : Option String :=
  (l.foldl (fun best p => if best.2 < p.2.length then (some p.1, p.2.length) else best)
    ((none : Option String), 0)).1

/-- Shallow embedding of generate_advanced_diagnosis (advanced_diagnosis.py,
lines 195-352).  The emergency check scans only `symptoms[:5]`; otherwise the
function reports the top condition of check_symptom_relationships, or falls
back to a body-system summary, or to generic advice.  The transcript
parameter is unused, as in the source. -/
def generate_advanced_diagnosis (symptoms : List String) (_transcript : String) :
    AdvancedDiagnosis :=
  match (symptoms.take 5).find? (fun s => emergency_symptoms.any (fun e => e.1 == s)) with
  | some s =>
      { diagnosis_text := "⚠️ MEDICAL ATTENTION ADVISED: " ++ (alookup s emergency_symptoms).getD ""
        severity := "emergency"
        confidence := "high"
        detected_symptoms := symptoms.take 10
        possible_conditions := []
        recommendations := ["Seek immediate medical attention",
          "Do not delay getting emergency care",
          "Call emergency services if symptoms are severe"] }
  | none =>
    match check_symptom_relationships symptoms with
    | [] =>
      match primary_system_of (system_symptoms_of symptoms) with
      | some sys =>
        { diagnosis_text :=
            "Based on your symptoms, you may be experiencing an issue primarily affecting your "
              ++ sys ++ " system. " ++ (alookup sys system_advice).getD ""
          severity := "moderate"
          confidence := "medium"
          detected_symptoms := symptoms.take 10
          possible_conditions := []
          recommendations := ["Monitor your symptoms and note any changes",
            "Stay hydrated and get adequate rest",
            "Avoid activities that worsen symptoms",
            "Consider over-the-counter medications appropriate for your symptoms",
            "Consult a healthcare provider if symptoms are severe, persistent, or worsening"] }
      | none =>
        { diagnosis_text :=
            "Based on your description, I\x27ve identified several symptoms but no clear pattern indicating a specific condition. It\x27s important to monitor your symptoms and seek medical attention if they persist or worsen. Consider keeping a symptom diary to track when symptoms occur and what might trigger them."
          severity := "mild to moderate"
          confidence := "low"
          detected_symptoms := symptoms.take 10
          possible_conditions := []
          recommendations := ["Monitor your symptoms and note any changes",
            "Stay hydrated and get adequate rest",
            "Consider over-the-counter medications appropriate for your specific symptoms",
            "Consult a healthcare provider if symptoms persist more than a few days",
            "Bring a list of your symptoms when consulting a healthcare provider"] }
    | top :: others =>
      let dt1 := "Based on your symptoms, you may be experiencing " ++ top.condition ++ ". "
        ++ top.description ++ " " ++ "This is typically a " ++ top.severity ++ " condition. "
      let dt2 :=
        if others = [] then dt1
        else pyRStripCommaSpace
            (dt1 ++ "Other possible conditions include: "
              ++ String.join (others.map (fun c => c.condition ++ ", "))) ++ ". "
      { diagnosis_text := dt2 ++
          "\n\nDISCLAIMER: This is not a professional medical diagnosis. If symptoms are severe or concerning, please consult a healthcare provider."
        severity := top.severity
        confidence := "medium"
        detected_symptoms := symptoms.take 10
        possible_conditions := top :: others
        recommendations := top.recommendations }

/-- The fixed decision tree built by DecisionTreeDiagnosis._build_decision_tree
(advanced_diagnosis_system.py, lines 222-314), including the dead second
entry ("nausea") of the two-key dict under fever/"yes". -/
def decision_tree : PyTree :=
  .node1 "fever"
    (.node2 "cough"
      (.node1 "shortness_of_breath" (.leaf "pneumonia")
        (.node1 "body_ache" (.leaf "influenza") (.leaf "bronchitis")))
      (.node1 "headache"
        (.node1 "neck_stiffness" (.leaf "meningitis") (.leaf "viral_infection"))
        (.leaf "viral_infection"))
      "nausea"
      (.node1 "vomiting"
        (.node1 "diarrhea" (.leaf "gastroenteritis") (.leaf "food_poisoning"))
        (.leaf "viral_infection"))
      (.leaf "viral_infection"))
    (.node1 "cough"
      (.node1 "congestion"
        (.node1 "sore_throat" (.leaf "common_cold") (.leaf "allergies"))
        (.leaf "bronchitis"))
      (.node1 "headache"
        (.node1 "nausea" (.leaf "migraine") (.leaf "tension_headache"))
        (.node1 "fatigue"
          (.node1 "joint_pain" (.leaf "rheumatoid_arthritis")
            (.node1 "pale_skin" (.leaf "anemia") (.leaf "chronic_fatigue_syndrome")))
          (.leaf "healthy"))))

/-- Shallow embedding of DecisionTreeDiagnosis.traverse_tree
(advanced_diagnosis_system.py, lines 316-346): at each dict node ask the
first key's question (`list(current_node.keys())[0]`) and follow the "yes"
branch when that symptom is present, the "no" branch otherwise, until a
string leaf is reached. -/
def traverse_tree (symptoms : List String) : PyTree → String
  | .leaf c => c
  | .node1 s y n =>
      if s ∈ symptoms then traverse_tree symptoms y else traverse_tree symptoms n
  | .node2 s y n _ _ _ =>
      if s ∈ symptoms then traverse_tree symptoms y else traverse_tree symptoms n

/-- All string leaves of a decision tree (the condition labels it can emit,
dead branches included). -/
def PyTree.leaves : PyTree → List String
  | .leaf c => [c]
  | .node1 _ y n => y.leaves ++ n.leaves
  | .node2 _ y n _ y2 n2 => y.leaves ++ n.leaves ++ y2.leaves ++ n2.leaves

/-- The first question a tree asks (none for a leaf). -/
def PyTree.rootQuestion : PyTree → Option String
  | .leaf _ => none
  | .node1 s _ _ => some s
  | .node2 s _ _ _ _ _ => some s

/-- P(symptom | condition) as BayesianMedicalModel.diagnose reads it: the
table value when documented, else the default 0.01 (the defaultdict yields an
empty table for unknown conditions). -/
def symptom_likelihood (condition symptom : String) : Rat :=
  match alookup symptom ((alookup condition symptom_given_condition).getD []) with
  | some p => p
  | none => (0.01 : Rat)

/-- The unnormalized posteriors of BayesianMedicalModel.diagnose
(advanced_diagnosis_system.py, lines 170-199): start from the prior and
multiply by the likelihood of each observed symptom in turn. -/
def bayes_unnormalized (symptoms : List String) : List (String × Rat) :=
  condition_prior.map
    (fun p => (p.1, symptoms.foldl (fun acc s => acc * symptom_likelihood p.1 s) p.2))

/-- The normalization total `sum(posterior.values())` of
BayesianMedicalModel.diagnose. -/
def bayes_total (symptoms : List String) : Rat :=
  ((bayes_unnormalized symptoms).map Prod.snd).sum

/-- Shallow embedding of BayesianMedicalModel.diagnose
(advanced_diagnosis_system.py, lines 170-208): unnormalized posteriors,
normalization when the total is positive, and a stable descending sort by
probability. -/
def bayes_diagnose (symptoms : List String) : List (String × Rat) :=
  sortDesc (if 0 < bayes_total symptoms
    then (bayes_unnormalized symptoms).map (fun p => (p.1, p.2 / bayes_total symptoms))
    else bayes_unnormalized symptoms)

/-- Specification-side formula for the Bayesian strategy (spec §4.4):
`prior × Π(likelihood(symptom|condition) for symptom in detected)`, stated
with `List.prod` rather than the source's running fold, for comparison with
`bayes_diagnose`. -/
def spec_bayes_weight (symptoms : List String) (condition : String) : Rat :=
  ((alookup condition condition_prior).getD 0) * (symptoms.map (symptom_likelihood condition)).prod

/-- Specification-side normalized posterior (spec §4.4): the weight divided by
the sum of all conditions' weights. -/
def spec_bayes_posterior (symptoms : List String) (condition : String) : Rat :=
  spec_bayes_weight symptoms condition /
    (condition_prior.map (fun p => spec_bayes_weight symptoms p.1)).sum

/-- Shallow embedding of calculate_condition_confidence
(medical_bert_emulation.py, lines 359-394): per condition, the match ratio
|matching| / |condition symptoms| and coverage ratio |matching| / |patient
symptoms| computed on the deduplicated sets, combined as 0.7·match + 0.3·cov,
then a stable sort by descending score.  (The source materializes the
matching set via Python set operations; its order is interpreter-dependent
and only its size is ever read.) -/
def calculate_condition_confidence (symptoms : List String) (conditions : List BertCondition) :
    List ScoredBertCondition :=
  let scored := conditions.map (fun c =>
    let cs := c.symptoms.dedup
    let ps := symptoms.dedup
    let matching := cs.filter (fun s => s ∈ ps)
    let mr : Rat := if cs = [] then 0 else (matching.length : Rat) / (cs.length : Rat)
    let cr : Rat := if ps = [] then 0 else (matching.length : Rat) / (ps.length : Rat)
    { toBertCondition := c
      score := (0.7 : Rat) * mr + (0.3 : Rat) * cr
      matching_symptoms := matching })
  sortDescBy (fun sc => sc.score) scored

/-- The five differential_diagnosis templates of CLINICAL_BERT_PATTERNS
(medical_bert_emulation.py, lines 52-58), with the {symptoms} and {conditions}
placeholders filled.  generate_bert_diagnosis selects one via the unseeded
`random.choice`; the selected index is the explicit first argument here
(indices beyond 4 collapse to the last template). -/
def clinical_bert_pattern (choice : Nat) (symptoms conditions : String) : String :=
  match choice with
  | 0 => "Given the presence of " ++ symptoms ++ ", the most likely conditions include " ++ conditions
  | 1 => "The symptoms of " ++ symptoms ++ " suggest a differential diagnosis of " ++ conditions
  | 2 => "When considering " ++ symptoms ++ " together, one should evaluate for " ++ conditions
  | 3 => "The combination of " ++ symptoms ++ " is commonly seen in " ++ conditions
  | _ => "Patients presenting with " ++ symptoms ++ " should be assessed for " ++ conditions

/-- Shallow embedding of generate_bert_diagnosis (medical_bert_emulation.py,
lines 396-453).  The hidden state of `random.choice` is exposed as the
explicit `choice` argument; everything else follows the source line by line.
The transcript parameter is unused, as in the source. -/
def generate_bert_diagnosis (symptoms : List String) (conditions : List ScoredBertCondition)
    (_transcript : String) (choice : Nat) : String :=
  match conditions with
  | [] => "Based on the symptoms described, no specific conditions could be identified. Please provide more detailed information about your symptoms or consult with a healthcare professional for a proper evaluation."
  | top :: rest =>
    let symptom_text := String.intercalate ", " (symptoms.map replaceUnderscores)
    let other_names := (rest.take 4).map (fun c => c.name)
    let condition_list :=
      if other_names = [] then "no other significant conditions"
      else String.intercalate ", " other_names
    let diagnosis := clinical_bert_pattern choice symptom_text
      (top.name ++ " (most likely) and " ++ condition_list)
    let confidence_level :=
      if (0.8 : Rat) < top.score then "high"
      else if (0.5 : Rat) < top.score then "moderate" else "low"
    let diagnosis := diagnosis ++ "\n\nBased on your symptom pattern, " ++ top.name
      ++ " appears to be the most likely diagnosis with " ++ confidence_level ++ " confidence."
    let diagnosis :=
      match top.description with
      | some d => diagnosis ++ "\n\n" ++ top.name ++ " is " ++ d
      | none => diagnosis
    let diagnosis :=
      if top.risk_factors = [] then diagnosis
      else diagnosis ++ "\n\nRisk factors for this condition include: "
        ++ String.intercalate ", " (top.risk_factors.map replaceUnderscores) ++ "."
    let diagnosis :=
      if top.complications = [] then diagnosis
      else diagnosis ++ "\n\nPossible complications may include: "
        ++ String.intercalate ", " (top.complications.map replaceUnderscores) ++ "."
    diagnosis ++ "\n\nDISCLAIMER: This is a preliminary assessment based on the described symptoms and should not replace a proper medical evaluation by a healthcare professional."

/-- The scoring-plus-text core of medical_bert_analyze
(medical_bert_emulation.py, lines 286-330), parametrized by the matching
conditions (the result of find_matching_conditions, whose iteration order is
itself Python-set dependent) and by the random template index consumed by
generate_bert_diagnosis: the scored ranking and the diagnosis text. -/
def bert_strategy (symptoms : List String) (transcript : String)
    (matching : List BertCondition) (choice : Nat) : List ScoredBertCondition × String :=
  let scored := calculate_condition_confidence symptoms matching
  (scored, generate_bert_diagnosis symptoms (scored.take 5) transcript choice)

/-- Category of a condition of the BERT-emulation base table, keyed by id. -/
def bert_condition_category (id : String) : Option String :=
  (base_conditions.find? (fun c => c.id == id)).map (fun c => c.category)

/-- The digestive floor table of _consolidate_diagnoses
(advanced_diagnosis_system.py, lines 909-918).  In the source each value is
`floor if id in all_conditions else 0` and the following loop touches only
ids present in all_conditions, so only the floor constants are observable. -/
def digestive_conditions : List (String × Rat) :=
  [("gastroenteritis", (0.99 : Rat)), ("food_poisoning", (0.98 : Rat)),
   ("stomach_flu", (0.97 : Rat)), ("irritable_bowel_syndrome", (0.96 : Rat)),
   ("gastritis", (0.95 : Rat)), ("peptic_ulcer", (0.94 : Rat)),
   ("acid_reflux", (0.93 : Rat)), ("gerd", (0.92 : Rat))]

/-- The heart-condition ids halved by _consolidate_diagnoses (lines 937-940). -/
def heart_conditions : List String := ["myocardial_infarction", "heart_attack", "cardiac_arrest"]

/-- Step 1 of _consolidate_diagnoses (advanced_diagnosis_system.py, lines
844-848): add the Bayesian probabilities with weight 0.2 into the fresh
accumulator. -/
def consolidate_step1 (r : ConsolidateResults) : List (String × Rat) :=
  r.bayesian_analysis.foldl (fun acc p => addScore acc p.1 (p.2 * (0.2 : Rat))) []

/-- Step 2 (lines 850-855): add 0.15 for the decision-tree result, if any. -/
def consolidate_step2 (r : ConsolidateResults) : List (String × Rat) :=
  match r.decision_tree_diagnosis with
  | some c => addScore (consolidate_step1 r) c (0.15 : Rat)
  | none => consolidate_step1 r

/-- Step 3 (lines 857-861): weighted-analysis scores with weight 0.25. -/
def consolidate_step3 (r : ConsolidateResults) : List (String × Rat) :=
  r.weighted_analysis.foldl (fun acc p => addScore acc p.1 (p.2 * (0.25 : Rat)))
    (consolidate_step2 r)

/-- Step 4 (lines 863-867): symptom-mapping scores with weight 0.2. -/
def consolidate_step4 (r : ConsolidateResults) : List (String × Rat) :=
  r.symptom_mapping.foldl (fun acc p => addScore acc p.1 (p.2 * (0.2 : Rat)))
    (consolidate_step3 r)

/-- Step 5 (lines 869-873): temporal-analysis scores with weight 0.1. -/
def consolidate_step5 (r : ConsolidateResults) : List (String × Rat) :=
  r.temporal_matching_conditions.foldl (fun acc p => addScore acc p.1 (p.2 * (0.1 : Rat)))
    (consolidate_step4 r)

/-- Step 6 (lines 875-890): serious conditions, weighted 0.4 / 0.3 / 0.2 by
urgency, keyed by the lowercased-underscored display name. -/
def consolidate_step6 (r : ConsolidateResults) : List (String × Rat) :=
  r.serious_conditions.foldl (fun acc c =>
    addScore acc (conditionId c.name)
      (if c.urgency = "High" then (0.4 : Rat)
       else if c.urgency = "Medium" then (0.3 : Rat) else (0.2 : Rat)))
    (consolidate_step5 r)

/-- Step 7 (lines 892-901): BERT conditions (when the analysis carried a
"conditions" list), confidence (default 0.5) with weight 0.2; entries with no
name are skipped. -/
def consolidate_accumulate (r : ConsolidateResults) : List (String × Rat) :=
  match r.bert_conditions with
  | some lst => lst.foldl (fun acc e =>
      match e.name with
      | some nm => addScore acc (conditionId nm) ((e.confidence.getD (0.5 : Rat)) * (0.2 : Rat))
      | none => acc) (consolidate_step6 r)
  | none => consolidate_step6 r

/-- The normalization step of _consolidate_diagnoses (lines 903-906): divide
every accumulated score by the maximum accumulated score (1 when the dict is
empty). -/
def consolidate_normalized (r : ConsolidateResults) : List (String × Rat) :=
  (consolidate_accumulate r).map
    (fun p => (p.1, p.2 / maxValues (consolidate_accumulate r)))

/-- The override step of _consolidate_diagnoses (lines 908-940): when "vomit"
or "nausea" is among the detected symptoms, raise each of the eight digestive
ids present to its floor and halve each of the three heart ids present. -/
def consolidate_rebalance (detected : List String) (acc : List (String × Rat)) :
    List (String × Rat) :=
  if "vomit" ∈ detected ∨ "nausea" ∈ detected then
    heart_conditions.foldl (fun a c => updateKey (fun v => v * (0.5 : Rat)) c a)
      (digestive_conditions.foldl (fun a cf => updateKey (fun v => max v cf.2) cf.1 a) acc)
  else acc

/-- Shallow embedding of _consolidate_diagnoses
(advanced_diagnosis_system.py, lines 831-945): accumulate, normalize,
rebalance, and sort by descending score. -/
def consolidate_diagnoses (r : ConsolidateResults) : List (String × Rat) :=
  sortDesc (consolidate_rebalance r.detected_symptoms (consolidate_normalized r))

/-- All strategy-local scores fed to the consolidation engine are nonnegative
(true of every producing strategy in the source). -/
def nonnegResults (r : ConsolidateResults) : Bool :=
  r.bayesian_analysis.all (fun p => decide (0 ≤ p.2)) &&
  r.weighted_analysis.all (fun p => decide (0 ≤ p.2)) &&
  r.symptom_mapping.all (fun p => decide (0 ≤ p.2)) &&
  r.temporal_matching_conditions.all (fun p => decide (0 ≤ p.2)) &&
  (match r.bert_conditions with
   | some lst => lst.all (fun e =>
      match e.confidence with
      | some c => decide (0 ≤ c)
      | none => true)
   | none => true)

/-- Concrete symptom list refuting claim C1: five non-emergency symptoms
followed by chest_pain and shortness_of_breath, so the `symptoms[:5]`
emergency scan misses both. -/
def c1_symptoms : List String :=
  ["cough", "fever", "fatigue", "headache", "nausea", "chest_pain", "shortness_of_breath"]

/-- The BERT-emulation base condition list filtered to migraine, used as a
concrete matching-conditions input. -/
def bert_migraine_matching : List BertCondition :=
  base_conditions.filter (fun c => c.id == "migraine")

/-- Concrete consolidation input refuting claim C5: nausea among the detected
symptoms, a cardiac-category condition (atrial fibrillation) scoring 1.0 and
a gastrointestinal-category condition (peptic ulcer disease) scoring low,
both coming from the BERT strategy. -/
def c5_input : ConsolidateResults :=
  { detected_symptoms := ["nausea"]
    bayesian_analysis := []
    decision_tree_diagnosis := none
    weighted_analysis := []
    symptom_mapping := []
    temporal_matching_conditions := []
    serious_conditions := []
    bert_conditions := some [⟨some "Atrial Fibrillation", some 1⟩,
                             ⟨some "Peptic Ulcer Disease", some (0.25 : Rat)⟩] }

/-- Concrete consolidation input for the C4 witness. -/
def c4_input : ConsolidateResults :=
  { detected_symptoms := []
    bayesian_analysis := [("common_cold", (0.5 : Rat))]
    decision_tree_diagnosis := none
    weighted_analysis := []
    symptom_mapping := []
    temporal_matching_conditions := []
    serious_conditions := []
    bert_conditions := none }

/-- Concrete rebalance input for the C5 amended-claim witness. -/
def c5_witness_acc : List (String × Rat) :=
  [("gastroenteritis", (0.5 : Rat)), ("myocardial_infarction", (1 : Rat))]

/-! ### Association-list lemmas -/

theorem alookup_mem {α : Type} {k : String} {v : α} :
    ∀ {l : List (String × α)}, alookup k l = some v → (k, v) ∈ l := by
  intro l
  induction l with
  | nil => intro h; simp [alookup] at h
  | cons p ps ih =>
    intro h
    by_cases hk : p.1 = k
    · simp [alookup, hk] at h
      subst hk; subst h
      exact List.mem_cons_self _ _
    · simp [alookup, hk] at h
      exact List.mem_cons_of_mem _ (ih h)

theorem alookup_of_mem_nodup {α : Type} {k : String} {v : α} :
    ∀ {l : List (String × α)}, (l.map Prod.fst).Nodup → (k, v) ∈ l → alookup k l = some v := by
  intro l
  induction l with
  | nil => intro _ h; simp at h
  | cons p ps ih =>
    intro hnd hmem
    rw [List.map_cons, List.nodup_cons] at hnd
    rcases List.mem_cons.mp hmem with h | h
    · subst h; simp [alookup]
    · have hk : p.1 ≠ k := by
        intro he
        exact hnd.1 (he ▸ (List.mem_map.mpr ⟨(k, v), h, rfl⟩))
      simp [alookup, hk]
      exact ih hnd.2 h

theorem alookup_append {α : Type} (k : String) (l₁ l₂ : List (String × α)) :
    alookup k (l₁ ++ l₂) =
      match alookup k l₁ with
      | some v => some v
      | none => alookup k l₂ := by
  induction l₁ with
  | nil => simp [alookup]
  | cons p ps ih =>
    by_cases hk : p.1 = k
    · simp [alookup, hk]
    · simp [alookup, hk, ih]

theorem alookup_none_of_not_any {α : Type} {k : String} :
    ∀ {l : List (String × α)}, l.any (fun p => p.1 == k) = false → alookup k l = none := by
  intro l
  induction l with
  | nil => intro _; rfl
  | cons p ps ih =>
    intro h
    simp only [List.any_cons, Bool.or_eq_false_iff] at h
    have hk : p.1 ≠ k := by
      intro he; rw [he] at h; simp at h
    simp [alookup, hk]
    exact ih h.2

theorem alookup_isSome_of_any {α : Type} {k : String} :
    ∀ {l : List (String × α)}, l.any (fun p => p.1 == k) = true → (alookup k l).isSome := by
  intro l
  induction l with
  | nil => intro h; simp at h
  | cons p ps ih =>
    intro h
    by_cases hk : p.1 = k
    · simp [alookup, hk]
    · simp only [List.any_cons, Bool.or_eq_true] at h
      rcases h with h | h
      · exact absurd (by simpa using h) hk
      · simpa [alookup, hk] using ih h

theorem alookup_updateKey (g : Rat → Rat) (c0 c : String) (l : List (String × Rat)) :
    alookup c (updateKey g c0 l) =
      if c = c0 then (alookup c l).map g else alookup c l := by
  induction l with
  | nil => by_cases h : c = c0 <;> simp [alookup, updateKey, h]
  | cons p ps ih =>
    by_cases hp0 : p.1 = c0
    · have hstep : updateKey g c0 (p :: ps) = (p.1, g p.2) :: updateKey g c0 ps := by
        simp [updateKey, hp0]
      rw [hstep]
      by_cases hpc : p.1 = c
      · have hcc : c = c0 := by rw [← hpc, hp0]
        simp [alookup, hpc, hcc]
      · simp [alookup, hpc, ih]
    · have hstep : updateKey g c0 (p :: ps) = p :: updateKey g c0 ps := by
        simp [updateKey, hp0]
      rw [hstep]
      by_cases hpc : p.1 = c
      · have hcc : ¬ c = c0 := by rw [← hpc]; exact hp0
        simp [alookup, hpc, hcc]
      · simp [alookup, hpc, ih]

theorem weightOf_addScore_self (l : List (String × Rat)) (k : String) (v : Rat) :
    weightOf k (addScore l k v) = weightOf k l + v := by
  unfold addScore
  by_cases h : l.any (fun p => p.1 == k) = true
  · rw [if_pos h]
    have hs := alookup_isSome_of_any (α := Rat) h
    obtain ⟨w, hw⟩ := Option.isSome_iff_exists.mp hs
    have : (l.map fun p => if p.1 = k then (p.1, p.2 + v) else p) = updateKey (fun x => x + v) k l := rfl
    rw [this]
    unfold weightOf
    rw [alookup_updateKey, if_pos rfl, hw]
    simp
  · rw [if_neg h]
    unfold weightOf
    rw [alookup_append]
    rw [alookup_none_of_not_any (Bool.eq_false_iff.mpr h)]
    simp [alookup]

theorem weightOf_addScore_other {k k0 : String} (hne : k ≠ k0) (l : List (String × Rat)) (v : Rat) :
    weightOf k (addScore l k0 v) = weightOf k l := by
  unfold addScore
  by_cases h : l.any (fun p => p.1 == k0) = true
  · rw [if_pos h]
    have : (l.map fun p => if p.1 = k0 then (p.1, p.2 + v) else p) = updateKey (fun x => x + v) k0 l := rfl
    rw [this]
    unfold weightOf
    rw [alookup_updateKey, if_neg hne]
  · rw [if_neg h]
    unfold weightOf
    rw [alookup_append]
    cases hcase : alookup k l with
    | some w => simp
    | none => simp [alookup, Ne.symm hne]

/-! ### Weight accounting for the exact keyword pass -/

theorem inner_fold_weight_self (m : String → Bool) (sym : String) :
    ∀ (kws : List String) (acc : List (String × Rat)),
      weightOf sym (kws.foldl (fun a kw => if m kw then addScore a sym 1 else a) acc) =
        weightOf sym acc + (kws.countP m : Rat) := by
  intro kws
  induction kws with
  | nil => intro acc; simp
  | cons kw rest ih =>
    intro acc
    by_cases hm : m kw = true
    · simp only [List.foldl_cons, if_pos hm]
      rw [ih, weightOf_addScore_self, List.countP_cons_of_pos _ _ hm]
      push_cast
      ring
    · simp only [List.foldl_cons, if_neg hm]
      rw [ih, List.countP_cons_of_neg _ _ (by simpa using hm)]

theorem inner_fold_weight_other (m : String → Bool) {sym k : String} (hne : sym ≠ k) :
    ∀ (kws : List String) (acc : List (String × Rat)),
      weightOf sym (kws.foldl (fun a kw => if m kw then addScore a k 1 else a) acc) =
        weightOf sym acc := by
  intro kws
  induction kws with
  | nil => intro acc; rfl
  | cons kw rest ih =>
    intro acc
    by_cases hm : m kw = true
    · simp only [List.foldl_cons, if_pos hm]
      rw [ih, weightOf_addScore_other hne]
    · simp only [List.foldl_cons, if_neg hm]
      exact ih acc

theorem outer_fold_weight_untouched (t : String) {sym : String} :
    ∀ (lex : List (String × List String)) (acc : List (String × Rat)),
      (∀ e ∈ lex, e.1 ≠ sym) →
      weightOf sym (lex.foldl (fun acc sk =>
        sk.2.foldl (fun acc2 kw => if wholeWordSearch kw t then addScore acc2 sk.1 1 else acc2) acc) acc) =
        weightOf sym acc := by
  intro lex
  induction lex with
  | nil => intro acc _; rfl
  | cons e rest ih =>
    intro acc hne
    simp only [List.foldl_cons]
    rw [ih _ (fun x hx => hne x (List.mem_cons_of_mem _ hx))]
    exact inner_fold_weight_other _ (fun h => hne e (List.mem_cons_self _ _) h.symm) _ _

theorem exact_keyword_pass_weight {lexicon : List (String × List String)} {sym : String}
    {kws : List String} (t : String)
    (hnd : (lexicon.map Prod.fst).Nodup) (hmem : (sym, kws) ∈ lexicon) :
    weightOf sym (exact_keyword_pass lexicon t) =
      (kws.countP (fun kw => wholeWordSearch kw t) : Rat) := by
  have main : ∀ (lex : List (String × List String)) (acc : List (String × Rat)),
      (lex.map Prod.fst).Nodup → (sym, kws) ∈ lex →
      weightOf sym (lex.foldl (fun acc sk =>
        sk.2.foldl (fun acc2 kw => if wholeWordSearch kw t then addScore acc2 sk.1 1 else acc2) acc) acc) =
        weightOf sym acc + (kws.countP (fun kw => wholeWordSearch kw t) : Rat) := by
    intro lex
    induction lex with
    | nil => intro acc _ h; simp at h
    | cons e rest ih =>
      intro acc hnd hmem
      rw [List.map_cons, List.nodup_cons] at hnd
      rcases List.mem_cons.mp hmem with h | h
      · subst h
        simp only [List.foldl_cons]
        rw [outer_fold_weight_untouched t rest _ ?keys]
        · exact inner_fold_weight_self _ _ _ _
        case keys =>
          intro x hx he
          exact hnd.1 (he ▸ List.mem_map.mpr ⟨x, hx, rfl⟩)
      · have hne : e.1 ≠ sym := by
          intro he
          exact hnd.1 (he ▸ List.mem_map.mpr ⟨(sym, kws), h, rfl⟩)
        simp only [List.foldl_cons]
        rw [ih _ hnd.2 h, inner_fold_weight_other _ (Ne.symm hne)]
  unfold exact_keyword_pass
  rw [main lexicon [] hnd hmem]
  simp [weightOf, alookup]

/-! ### Stable descending sort -/

theorem insertDescBy_perm {α : Type} (key : α → Rat) (x : α) :
    ∀ l : List α, (insertDescBy key x l).Perm (x :: l) := by
  intro l
  induction l with
  | nil => simp [insertDescBy]
  | cons y ys ih =>
    by_cases h : key x ≤ key y
    · simp only [insertDescBy, if_pos h]
      exact (ih.cons y).trans (List.Perm.swap x y ys)
    · simp [insertDescBy, if_neg h]

theorem sortDescBy_perm {α : Type} (key : α → Rat) (l : List α) :
    (sortDescBy key l).Perm l := by
  have main : ∀ (l acc : List α),
      (l.foldl (fun acc x => insertDescBy key x acc) acc).Perm (l ++ acc) := by
    intro l
    induction l with
    | nil => intro acc; simp
    | cons x xs ih =>
      intro acc
      simp only [List.foldl_cons]
      refine (ih _).trans ?_
      refine (List.Perm.append_left xs (insertDescBy_perm key x acc)).trans ?_
      exact List.perm_middle
  simpa using main l []

theorem insertDescBy_pairwise {α : Type} (key : α → Rat) (x : α) {l : List α}
    (hl : l.Pairwise (fun a b => key b ≤ key a)) :
    (insertDescBy key x l).Pairwise (fun a b => key b ≤ key a) := by
  induction l with
  | nil => simp [insertDescBy]
  | cons y ys ih =>
    rw [List.pairwise_cons] at hl
    by_cases h : key x ≤ key y
    · simp only [insertDescBy, if_pos h]
      rw [List.pairwise_cons]
      constructor
      · intro z hz
        have hz2 : z ∈ x :: ys := ((insertDescBy_perm key x ys).mem_iff).mp hz
        rcases List.mem_cons.mp hz2 with hz' | hz'
        · rw [hz']; exact h
        · exact hl.1 z hz'
      · exact ih hl.2
    · push_neg at h
      simp only [insertDescBy, if_neg (not_le.mpr h)]
      rw [List.pairwise_cons]
      constructor
      · intro z hz
        rcases List.mem_cons.mp hz with hz' | hz'
        · rw [hz']; exact le_of_lt h
        · exact (hl.1 z hz').trans (le_of_lt h)
      · exact List.pairwise_cons.mpr hl

theorem sortDescBy_pairwise {α : Type} (key : α → Rat) (l : List α) :
    (sortDescBy key l).Pairwise (fun a b => key b ≤ key a) := by
  have main : ∀ (l acc : List α), acc.Pairwise (fun a b => key b ≤ key a) →
      (l.foldl (fun acc x => insertDescBy key x acc) acc).Pairwise (fun a b => key b ≤ key a) := by
    intro l
    induction l with
    | nil => intro acc h; exact h
    | cons x xs ih =>
      intro acc h
      simp only [List.foldl_cons]
      exact ih _ (insertDescBy_pairwise key x h)
  exact main l [] (by simp)

/-! ### Fold invariants and maxima -/

theorem foldl_inv {α : Type} (step : List (String × Rat) → α → List (String × Rat))
    (Inv : (String × Rat) → Prop) :
    ∀ (xs : List α) (acc : List (String × Rat)),
      (∀ a x, x ∈ xs → (∀ p ∈ a, Inv p) → ∀ p ∈ step a x, Inv p) →
      (∀ p ∈ acc, Inv p) → ∀ p ∈ xs.foldl step acc, Inv p := by
  intro xs
  induction xs with
  | nil => intro acc _ hacc; simpa using hacc
  | cons x rest ih =>
    intro acc hstep hacc
    simp only [List.foldl_cons]
    exact ih _ (fun a y hy => hstep a y (List.mem_cons_of_mem _ hy))
      (hstep acc x (List.mem_cons_self _ _) hacc)

theorem addScore_inv {Inv : (String × Rat) → Prop} {l : List (String × Rat)} {k : String} {v : Rat}
    (hl : ∀ p ∈ l, Inv p) (hadd : ∀ p ∈ l, Inv (p.1, p.2 + v)) (hnew : Inv (k, v)) :
    ∀ p ∈ addScore l k v, Inv p := by
  intro p hp
  unfold addScore at hp
  by_cases h : l.any (fun p => p.1 == k) = true
  · rw [if_pos h] at hp
    obtain ⟨q, hq, hqe⟩ := List.mem_map.mp hp
    by_cases hq1 : q.1 = k
    · rw [if_pos hq1] at hqe
      subst hqe; exact hadd q hq
    · rw [if_neg hq1] at hqe
      subst hqe; exact hl q hq
  · rw [if_neg h] at hp
    rcases List.mem_append.mp hp with h' | h'
    · exact hl p h'
    · simp at h'
      subst h'; exact hnew

theorem updateKey_inv {Inv : Rat → Prop} (g : Rat → Rat) (c0 : String)
    {l : List (String × Rat)} (hg : ∀ v, Inv v → Inv (g v)) (hl : ∀ p ∈ l, Inv p.2) :
    ∀ p ∈ updateKey g c0 l, Inv p.2 := by
  intro p hp
  obtain ⟨q, hq, hqe⟩ := List.mem_map.mp hp
  by_cases hq1 : q.1 = c0
  · rw [if_pos hq1] at hqe; subst hqe; exact hg _ (hl q hq)
  · rw [if_neg hq1] at hqe; subst hqe; exact hl q hq

theorem foldl_max_init_le (vs : List Rat) : ∀ v : Rat, v ≤ vs.foldl max v := by
  induction vs with
  | nil => intro v; simp
  | cons x xs ih =>
    intro v
    simp only [List.foldl_cons]
    exact (le_max_left v x).trans (ih _)

theorem foldl_max_mem_le {x : Rat} : ∀ {vs : List Rat}, x ∈ vs → ∀ v : Rat, x ≤ vs.foldl max v := by
  intro vs
  induction vs with
  | nil => intro h; simp at h
  | cons y ys ih =>
    intro h v
    rcases List.mem_cons.mp h with h' | h'
    · subst h'
      simp only [List.foldl_cons]
      exact (le_max_right v x).trans (foldl_max_init_le _ _)
    · simp only [List.foldl_cons]
      exact ih h' _

theorem foldl_max_snd_eq (ps : List (String × Rat)) :
    ∀ v : Rat, ps.foldl (fun m q => max m q.2) v = (ps.map Prod.snd).foldl max v := by
  induction ps with
  | nil => intro v; rfl
  | cons r rs ih => intro v; simp only [List.foldl_cons, List.map_cons]; exact ih _

theorem le_maxValues {l : List (String × Rat)} : ∀ p ∈ l, p.2 ≤ maxValues l := by
  intro p hp
  cases l with
  | nil => simp at hp
  | cons q qs =>
    simp only [maxValues, foldl_max_snd_eq]
    rcases List.mem_cons.mp hp with h | h
    · subst h; exact foldl_max_init_le _ _
    · exact foldl_max_mem_le (List.mem_map.mpr ⟨p, h, rfl⟩) _

theorem max_div_of_pos {M : Rat} (hM : 0 < M) (a b : Rat) :
    max a b / M = max (a / M) (b / M) := by
  rcases le_total a b with h | h
  · rw [max_eq_right h, max_eq_right ((div_le_div_iff_of_pos_right hM).mpr h)]
  · rw [max_eq_left h, max_eq_left ((div_le_div_iff_of_pos_right hM).mpr h)]

theorem maxValues_map_div {M : Rat} (hM : 0 < M) (l : List (String × Rat)) (hne : l ≠ []) :
    maxValues (l.map (fun p => (p.1, p.2 / M))) = maxValues l / M := by
  cases l with
  | nil => exact absurd rfl hne
  | cons p ps =>
    have main : ∀ (qs : List (String × Rat)) (v : Rat),
        (qs.map (fun p => (p.1, p.2 / M))).foldl (fun m q => max m q.2) (v / M) =
          (qs.foldl (fun m q => max m q.2) v) / M := by
      intro qs
      induction qs with
      | nil => intro v; rfl
      | cons r rs ih =>
        intro v
        simp only [List.map_cons, List.foldl_cons]
        rw [← max_div_of_pos hM, ih]
    simp only [List.map_cons, maxValues]
    exact main ps p.2

theorem maxValues_nonempty_mem {l : List (String × Rat)} (hne : l ≠ []) :
    maxValues l ∈ l.map Prod.snd := by
  cases l with
  | nil => exact absurd rfl hne
  | cons p ps =>
    have hfold : ∀ (qs : List (String × Rat)) (v : Rat),
        qs.foldl (fun m q => max m q.2) v = v ∨
          qs.foldl (fun m q => max m q.2) v ∈ qs.map Prod.snd := by
      intro qs
      induction qs with
      | nil => intro v; left; rfl
      | cons r rs ih =>
        intro v
        simp only [List.foldl_cons, List.map_cons]
        rcases ih (max v r.2) with h | h
        · rcases max_choice v r.2 with h' | h'
          · left; rw [h, h']
          · right; rw [h, h']; exact List.mem_cons_self _ _
        · right; exact List.mem_cons_of_mem _ h
    simp only [maxValues, List.map_cons]
    rcases hfold ps p.2 with h | h
    · rw [h]; exact List.mem_cons_self _ _
    · exact List.mem_cons_of_mem _ h

/-! ### Miscellaneous list lemmas -/

theorem dropWhile_eq_nil_of_all {p : Char → Bool} :
    ∀ {l : List Char}, (∀ c ∈ l, p c = true) → l.dropWhile p = [] := by
  intro l
  induction l with
  | nil => intro _; rfl
  | cons c cs ih =>
    intro h
    rw [List.dropWhile_cons, if_pos (h c (List.mem_cons_self _ _))]
    exact ih (fun x hx => h x (List.mem_cons_of_mem _ hx))

theorem foldl_mul_eq_prod (f : String → Rat) :
    ∀ (l : List String) (i : Rat), l.foldl (fun a s => a * f s) i = i * (l.map f).prod := by
  intro l
  induction l with
  | nil => intro i; simp
  | cons x xs ih =>
    intro i
    simp only [List.foldl_cons, List.map_cons, List.prod_cons]
    rw [ih]
    ring

theorem sum_map_div (T : Rat) :
    ∀ l : List Rat, (l.map (fun x => x / T)).sum = l.sum / T := by
  intro l
  induction l with
  | nil => simp
  | cons x xs ih =>
    simp only [List.map_cons, List.sum_cons, ih]
    rw [add_div]

/-! ### Lookups through the rebalance folds -/

theorem alookup_foldl_floor_not_mem (fl : List (String × Rat)) (c : String)
    (h : ∀ cf ∈ fl, cf.1 ≠ c) :
    ∀ acc : List (String × Rat),
      alookup c (fl.foldl (fun a cf => updateKey (fun v => max v cf.2) cf.1 a) acc) =
        alookup c acc := by
  induction fl with
  | nil => intro acc; rfl
  | cons cf fls ih =>
    intro acc
    simp only [List.foldl_cons]
    rw [ih (fun x hx => h x (List.mem_cons_of_mem _ hx)) _,
      alookup_updateKey, if_neg (Ne.symm (h cf (List.mem_cons_self _ _)))]

theorem alookup_foldl_floor_mem (fl : List (String × Rat)) (c : String) (f : Rat)
    (hnd : (fl.map Prod.fst).Nodup) (hmem : (c, f) ∈ fl) :
    ∀ acc : List (String × Rat),
      alookup c (fl.foldl (fun a cf => updateKey (fun v => max v cf.2) cf.1 a) acc) =
        (alookup c acc).map (fun v => max v f) := by
  induction fl with
  | nil => simp at hmem
  | cons cf fls ih =>
    intro acc
    rw [List.map_cons, List.nodup_cons] at hnd
    rcases List.mem_cons.mp hmem with h | h
    · subst h
      simp only [List.foldl_cons]
      rw [alookup_foldl_floor_not_mem fls c ?hne _, alookup_updateKey, if_pos rfl]
      case hne =>
        intro x hx he
        apply hnd.1
        rw [← he]
        exact List.mem_map.mpr ⟨x, hx, rfl⟩
    · have hne : cf.1 ≠ c := by
        intro he
        apply hnd.1
        rw [he]
        exact List.mem_map.mpr ⟨(c, f), h, rfl⟩
      simp only [List.foldl_cons]
      rw [ih hnd.2 h, alookup_updateKey, if_neg (Ne.symm hne)]

theorem alookup_foldl_halve_not_mem (hs : List String) (x : String)
    (h : ∀ c' ∈ hs, c' ≠ x) :
    ∀ acc : List (String × Rat),
      alookup x (hs.foldl (fun a c' => updateKey (fun v => v * (0.5 : Rat)) c' a) acc) =
        alookup x acc := by
  induction hs with
  | nil => intro acc; rfl
  | cons c' hs' ih =>
    intro acc
    simp only [List.foldl_cons]
    rw [ih (fun y hy => h y (List.mem_cons_of_mem _ hy)) _,
      alookup_updateKey, if_neg (Ne.symm (h c' (List.mem_cons_self _ _)))]

theorem alookup_foldl_halve_mem (hs : List String) (x : String)
    (hnd : hs.Nodup) (hmem : x ∈ hs) :
    ∀ acc : List (String × Rat),
      alookup x (hs.foldl (fun a c' => updateKey (fun v => v * (0.5 : Rat)) c' a) acc) =
        (alookup x acc).map (fun v => v * (0.5 : Rat)) := by
  induction hs with
  | nil => simp at hmem
  | cons c' hs' ih =>
    intro acc
    rw [List.nodup_cons] at hnd
    rcases List.mem_cons.mp hmem with h | h
    · subst h
      simp only [List.foldl_cons]
      rw [alookup_foldl_halve_not_mem hs' x (fun y hy he => hnd.1 (he ▸ hy)) _,
        alookup_updateKey, if_pos rfl]
    · have hne : c' ≠ x := by
        intro he
        exact hnd.1 (he ▸ h)
      simp only [List.foldl_cons]
      rw [ih hnd.2 h, alookup_updateKey, if_neg (Ne.symm hne)]

/-! ### Nonnegativity of the consolidation accumulator -/

theorem addScore_step_nonneg {acc : List (String × Rat)} {k : String} {v : Rat}
    (hacc : ∀ p ∈ acc, 0 ≤ p.2) (hv : 0 ≤ v) : ∀ p ∈ addScore acc k v, 0 ≤ p.2 :=
  addScore_inv hacc (fun p hp => add_nonneg (hacc p hp) hv) hv

theorem consolidate_accumulate_nonneg (r : ConsolidateResults) (h : nonnegResults r = true) :
    ∀ p ∈ consolidate_accumulate r, 0 ≤ p.2 := by
  unfold nonnegResults at h
  simp only [Bool.and_eq_true] at h
  obtain ⟨⟨⟨⟨h1, h2⟩, h3⟩, h4⟩, h5⟩ := h
  rw [List.all_eq_true] at h1 h2 h3 h4
  have s1 : ∀ p ∈ consolidate_step1 r, 0 ≤ p.2 := by
    apply foldl_inv _ (fun p => 0 ≤ p.2) _ _ ?_ (by simp)
    intro a x hx ha
    exact addScore_step_nonneg ha
      (mul_nonneg (of_decide_eq_true (h1 x hx)) (by norm_num))
  have s2 : ∀ p ∈ consolidate_step2 r, 0 ≤ p.2 := by
    unfold consolidate_step2
    cases r.decision_tree_diagnosis with
    | some c => exact addScore_step_nonneg s1 (by norm_num)
    | none => exact s1
  have s3 : ∀ p ∈ consolidate_step3 r, 0 ≤ p.2 := by
    apply foldl_inv _ (fun p => 0 ≤ p.2) _ _ ?_ s2
    intro a x hx ha
    exact addScore_step_nonneg ha
      (mul_nonneg (of_decide_eq_true (h2 x hx)) (by norm_num))
  have s4 : ∀ p ∈ consolidate_step4 r, 0 ≤ p.2 := by
    apply foldl_inv _ (fun p => 0 ≤ p.2) _ _ ?_ s3
    intro a x hx ha
    exact addScore_step_nonneg ha
      (mul_nonneg (of_decide_eq_true (h3 x hx)) (by norm_num))
  have s5 : ∀ p ∈ consolidate_step5 r, 0 ≤ p.2 := by
    apply foldl_inv _ (fun p => 0 ≤ p.2) _ _ ?_ s4
    intro a x hx ha
    exact addScore_step_nonneg ha
      (mul_nonneg (of_decide_eq_true (h4 x hx)) (by norm_num))
  have s6 : ∀ p ∈ consolidate_step6 r, 0 ≤ p.2 := by
    apply foldl_inv _ (fun p => 0 ≤ p.2) _ _ ?_ s5
    intro a x hx ha
    apply addScore_step_nonneg ha
    by_cases hu : x.urgency = "High"
    · rw [if_pos hu]; norm_num
    · rw [if_neg hu]
      by_cases hm : x.urgency = "Medium"
      · rw [if_pos hm]; norm_num
      · rw [if_neg hm]; norm_num
  unfold consolidate_accumulate
  cases hb : r.bert_conditions with
  | none => exact s6
  | some lst =>
    rw [hb] at h5
    rw [List.all_eq_true] at h5
    apply foldl_inv _ (fun p => 0 ≤ p.2) _ _ ?_ s6
    intro a x hx ha
    cases hn : x.name with
    | none => exact ha
    | some nm =>
      apply addScore_step_nonneg ha
      apply mul_nonneg ?_ (by norm_num)
      cases hc : x.confidence with
      | none => norm_num
      | some cv =>
        have := h5 x hx
        rw [hc] at this
        exact of_decide_eq_true this

theorem sortDesc_perm (l : List (String × Rat)) : (sortDesc l).Perm l :=
  sortDescBy_perm Prod.snd l

theorem sortDesc_pairwise (l : List (String × Rat)) :
    (sortDesc l).Pairwise (fun a b => b.2 ≤ a.2) :=
  sortDescBy_pairwise Prod.snd l

set_option maxRecDepth 100000

/-! ### Claim C3 -/

/-- Claim C3: for every transcript that is empty or consists only of
whitespace, advanced_diagnose_symptoms returns the empty symptom list, the
fixed "please provide more details" message and an empty info dict — whatever
the remainder of the pipeline would compute — and, being a total function,
surfaces no exception. -/
theorem c3_empty_input_fixed_response (rest : String → DiagnoseOutput) (transcript : String)
    (h : ∀ c ∈ transcript.data, isPyWhitespace c = true) :
    advanced_diagnose_symptoms rest transcript =
      { symptoms := []
        diagnosis_text := "Please provide some details about your symptoms."
        additional_info := [] } := by
  have hstrip : pyStrip transcript = "" := by
    unfold pyStrip
    rw [dropWhile_eq_nil_of_all h]
    rfl
  unfold advanced_diagnose_symptoms
  rw [if_pos (Or.inr hstrip)]

/-- Witness for C3 at the whitespace-only transcript "  ", with a rest-of-
pipeline stub that would return something else. -/
theorem c3_witness :
    advanced_diagnose_symptoms
      (fun t => { symptoms := [t], diagnosis_text := t, additional_info := [] }) "  " =
      { symptoms := []
        diagnosis_text := "Please provide some details about your symptoms."
        additional_info := [] } :=
  c3_empty_input_fixed_response _ "  " (by decide)

/-! ### Claim C9 -/

theorem traverse_tree_mem_leaves (symptoms : List String) :
    ∀ t : PyTree, traverse_tree symptoms t ∈ t.leaves := by
  intro t
  induction t with
  | leaf c => simp [traverse_tree, PyTree.leaves]
  | node1 s y n ihy ihn =>
    by_cases h : s ∈ symptoms
    · simp only [traverse_tree, if_pos h, PyTree.leaves, List.mem_append]
      exact Or.inl ihy
    · simp only [traverse_tree, if_neg h, PyTree.leaves, List.mem_append]
      exact Or.inr ihn
  | node2 s y n s2 y2 n2 ihy ihn ihy2 ihn2 =>
    by_cases h : s ∈ symptoms
    · simp only [traverse_tree, if_pos h, PyTree.leaves, List.mem_append]
      exact Or.inl (Or.inl (Or.inl ihy))
    · simp only [traverse_tree, if_neg h, PyTree.leaves, List.mem_append]
      exact Or.inl (Or.inl (Or.inr ihn))

/-- Claim C9: for every input symptom list the decision-tree traversal
terminates (traverse_tree is a total structurally-recursive function) and
returns exactly one condition label, a string leaf of the fixed tree, along a
single deterministic path whose first question — the root question — is the
fever question. -/
theorem c9_decision_tree_traversal (symptoms : List String) :
    traverse_tree symptoms decision_tree ∈ decision_tree.leaves ∧
      decision_tree.rootQuestion = some "fever" :=
  ⟨traverse_tree_mem_leaves symptoms decision_tree, rfl⟩

/-! ### Claims C6 and C10: the Bayesian strategy -/

theorem condition_prior_keys_nodup : (condition_prior.map Prod.fst).Nodup := by decide

theorem condition_prior_values_pos : ∀ p ∈ condition_prior, 0 < p.2 := by decide

theorem symptom_likelihood_pos (c s : String) : 0 < symptom_likelihood c s := by
  have ht : ∀ q ∈ (alookup c symptom_given_condition).getD [], 0 < q.2 := by
    cases h2 : alookup c symptom_given_condition with
    | none => intro q hq; simp at hq
    | some tbl =>
      intro q hq
      simp only [Option.getD_some] at hq
      have hall : ∀ e ∈ symptom_given_condition, ∀ q ∈ e.2, 0 < q.2 := by decide
      exact hall (c, tbl) (alookup_mem h2) q hq
  unfold symptom_likelihood
  cases h : alookup s ((alookup c symptom_given_condition).getD []) with
  | none => norm_num
  | some p => exact ht (s, p) (alookup_mem h)

theorem bayes_unnormalized_pos (symptoms : List String) :
    ∀ p ∈ bayes_unnormalized symptoms, 0 < p.2 := by
  intro p hp
  obtain ⟨q, hq, rfl⟩ := List.mem_map.mp hp
  show 0 < symptoms.foldl (fun acc s => acc * symptom_likelihood q.1 s) q.2
  have hfold : ∀ (l : List String) (i : Rat), 0 < i →
      0 < l.foldl (fun acc s => acc * symptom_likelihood q.1 s) i := by
    intro l
    induction l with
    | nil => intro i hi; exact hi
    | cons x xs ih =>
      intro i hi
      exact ih _ (mul_pos hi (symptom_likelihood_pos _ _))
  exact hfold symptoms q.2 (condition_prior_values_pos q hq)

theorem bayes_total_pos (symptoms : List String) : 0 < bayes_total symptoms := by
  unfold bayes_total
  apply List.sum_pos
  · intro v hv
    obtain ⟨p, hp, rfl⟩ := List.mem_map.mp hv
    exact bayes_unnormalized_pos symptoms p hp
  · simp [bayes_unnormalized, condition_prior]

theorem bayes_fold_eq_spec_weight (symptoms : List String) (q : String × Rat)
    (hq : q ∈ condition_prior) :
    symptoms.foldl (fun acc s => acc * symptom_likelihood q.1 s) q.2 =
      spec_bayes_weight symptoms q.1 := by
  unfold spec_bayes_weight
  rw [alookup_of_mem_nodup condition_prior_keys_nodup hq]
  simp only [Option.getD_some]
  exact foldl_mul_eq_prod _ symptoms q.2

theorem bayes_total_eq_spec (symptoms : List String) :
    bayes_total symptoms = (condition_prior.map (fun p => spec_bayes_weight symptoms p.1)).sum := by
  unfold bayes_total bayes_unnormalized
  rw [List.map_map]
  apply congrArg List.sum
  apply List.map_congr_left
  intro q hq
  exact bayes_fold_eq_spec_weight symptoms q hq

theorem bayes_diagnose_eq (symptoms : List String) :
    bayes_diagnose symptoms =
      sortDesc ((bayes_unnormalized symptoms).map
        (fun p => (p.1, p.2 / bayes_total symptoms))) := by
  unfold bayes_diagnose
  rw [if_pos (bayes_total_pos symptoms)]

/-- Claim C6: for every list of detected symptoms the Bayesian strategy's
returned posteriors sum to 1, and every returned entry equals the
specification formula prior × Π likelihood(symptom|condition) — with default
likelihood 0.01 for undocumented pairs — normalized by the total over all
conditions. -/
theorem c6_bayesian_posterior_formula (symptoms : List String) :
    ((bayes_diagnose symptoms).map Prod.snd).sum = 1 ∧
    (bayes_diagnose symptoms).all
      (fun p => decide (p.2 = spec_bayes_posterior symptoms p.1)) = true := by
  have hT := bayes_total_pos symptoms
  constructor
  · have hperm : ((bayes_diagnose symptoms).map Prod.snd).Perm
        (((bayes_unnormalized symptoms).map
          (fun p => (p.1, p.2 / bayes_total symptoms))).map Prod.snd) := by
      rw [bayes_diagnose_eq]
      exact (sortDesc_perm _).map Prod.snd
    rw [hperm.sum_eq, List.map_map]
    have hcomp : (bayes_unnormalized symptoms).map
        (Prod.snd ∘ fun p : String × Rat => (p.1, p.2 / bayes_total symptoms)) =
        ((bayes_unnormalized symptoms).map Prod.snd).map
          (fun x => x / bayes_total symptoms) := by
      rw [List.map_map]; rfl
    rw [hcomp, sum_map_div]
    exact div_self (ne_of_gt hT)
  · rw [List.all_eq_true]
    intro p hp
    apply decide_eq_true
    rw [bayes_diagnose_eq] at hp
    have hp2 := ((sortDesc_perm _).mem_iff).mp hp
    obtain ⟨q, hq, rfl⟩ := List.mem_map.mp hp2
    show q.2 / bayes_total symptoms = spec_bayes_posterior symptoms q.1
    unfold spec_bayes_posterior
    rw [← bayes_total_eq_spec]
    obtain ⟨q0, hq0, rfl⟩ := List.mem_map.mp hq
    show (List.foldl _ q0.2 symptoms) / bayes_total symptoms = _
    rw [bayes_fold_eq_spec_weight symptoms q0 hq0]

/-- Claim C10: for every input symptom list (the empty list included) the
Bayesian strategy returns a ranking whose key multiset is exactly the fixed
15 conditions of the prior table, with every probability strictly positive,
ordered by descending probability. -/
theorem c10_bayes_diagnose_shape (symptoms : List String) :
    ((bayes_diagnose symptoms).map Prod.fst).Perm (condition_prior.map Prod.fst) ∧
    (bayes_diagnose symptoms).all (fun p => decide (0 < p.2)) = true ∧
    (bayes_diagnose symptoms).Pairwise (fun a b => b.2 ≤ a.2) := by
  have hT := bayes_total_pos symptoms
  refine ⟨?_, ?_, ?_⟩
  · rw [bayes_diagnose_eq]
    refine ((sortDesc_perm _).map Prod.fst).trans ?_
    have heq : (((bayes_unnormalized symptoms).map
        (fun p : String × Rat => (p.1, p.2 / bayes_total symptoms))).map Prod.fst) =
        condition_prior.map Prod.fst := by
      unfold bayes_unnormalized
      rw [List.map_map, List.map_map]
      rfl
    rw [heq]
  · rw [List.all_eq_true]
    intro p hp
    apply decide_eq_true
    rw [bayes_diagnose_eq] at hp
    have hp2 := ((sortDesc_perm _).mem_iff).mp hp
    obtain ⟨q, hq, rfl⟩ := List.mem_map.mp hp2
    exact div_pos (bayes_unnormalized_pos symptoms q hq) hT
  · rw [bayes_diagnose_eq]
    exact sortDesc_pairwise _

/-! ### Claim C1 -/

/-- Counterexample to claim C1: a detected-symptom list that contains both
chest_pain and shortness_of_breath, yet is not tagged "emergency", because
five higher-ranked non-emergency symptoms push both past the `symptoms[:5]`
emergency scan; the pipeline instead reports the top relationship match
(COVID-19, severity "mild to severe"). -/
theorem c1_counterexample :
    "chest_pain" ∈ c1_symptoms ∧ "shortness_of_breath" ∈ c1_symptoms ∧
    (generate_advanced_diagnosis c1_symptoms "").severity = "mild to severe" ∧
    ¬ (generate_advanced_diagnosis c1_symptoms "").severity = "emergency" := by
  refine ⟨by decide, by decide, by decide, by decide⟩

/-- Claim C1 amended: the "emergency" tag is guaranteed exactly when one of
the eight emergency symptoms — chest_pain and shortness_of_breath among
them — appears within the first five entries of the detected-symptom list;
generate_advanced_diagnosis then returns severity "emergency". -/
theorem c1_amended_emergency_on_prefix (symptoms : List String) (t s : String)
    (hs : s ∈ symptoms.take 5)
    (he : emergency_symptoms.any (fun e => e.1 == s) = true) :
    (generate_advanced_diagnosis symptoms t).severity = "emergency" := by
  have h : ((symptoms.take 5).find? (fun x => emergency_symptoms.any (fun e => e.1 == x))).isSome := by
    rw [List.find?_isSome]
    exact ⟨s, hs, he⟩
  obtain ⟨v, hv⟩ := Option.isSome_iff_exists.mp h
  unfold generate_advanced_diagnosis
  rw [hv]

/-- Witness for the amended C1: chest_pain leading the list forces the
emergency tag. -/
theorem c1_amended_witness :
    (generate_advanced_diagnosis ["chest_pain", "cough"] "").severity = "emergency" :=
  c1_amended_emergency_on_prefix ["chest_pain", "cough"] "" "chest_pain" (by decide) (by decide)

/-! ### Claim C2 -/

/-- Counterexample to claim C2: with identical inputs (symptoms, transcript,
matching conditions), two different values of the hidden random state — the
template index that random.choice draws — make the BERT-emulation strategy
produce different diagnosis texts, so its output is not a pure function of
the inputs. -/
theorem c2_counterexample :
    (bert_strategy ["severe_headache"] "I have a severe headache" bert_migraine_matching 0).2 ≠
    (bert_strategy ["severe_headache"] "I have a severe headache" bert_migraine_matching 1).2 := by
  decide

/-- Claim C2 amended: the numeric scoring of the BERT-emulation strategy is a
deterministic function of the detected symptoms and the condition list — it
does not depend on the random template index — and equals
calculate_condition_confidence; only the generated diagnosis text depends on
the hidden random state (and the module-level condition database is itself
built with unseeded randomness at import). -/
theorem c2_amended_scores_deterministic (symptoms : List String) (transcript : String)
    (matching : List BertCondition) (i j : Nat) :
    (bert_strategy symptoms transcript matching i).1 =
      (bert_strategy symptoms transcript matching j).1 ∧
    (bert_strategy symptoms transcript matching i).1 =
      calculate_condition_confidence symptoms matching :=
  ⟨rfl, rfl⟩

/-! ### Claim C7 -/

/-- Counterexample to claim C7: the transcript "Headache headache" contains
two whole-word hits of the keyword variant "headache", yet the exact keyword
pass gives the symptom weight 1, not 2 — re.search fires at most once per
variant. -/
theorem c7_counterexample :
    countWholeWordHits "headache" (pyLower "Headache headache") = 2 ∧
    weightOf "headache" (exact_keyword_pass expanded_symptom_keywords (pyLower "Headache headache")) = 1 := by
  constructor
  · decide
  · decide

/-- Claim C7 amended: in the exact keyword pass each keyword variant
contributes weight 1.0 at most once (re.search reports presence, not
occurrences): a symptom's weight equals the number of its distinct variants
with a whole-word hit, and is therefore ≥ 1.0 whenever any variant occurs
whole-word in the transcript. -/
theorem c7_amended_weight_counts_variants (lexicon : List (String × List String))
    (t sym : String) (kws : List String)
    (hnd : (lexicon.map Prod.fst).Nodup) (hmem : (sym, kws) ∈ lexicon) :
    weightOf sym (exact_keyword_pass lexicon t) =
      (kws.countP (fun kw => wholeWordSearch kw t) : Rat) ∧
    (kws.any (fun kw => wholeWordSearch kw t) = true →
      1 ≤ weightOf sym (exact_keyword_pass lexicon t)) := by
  have he := exact_keyword_pass_weight t hnd hmem
  refine ⟨he, fun hany => ?_⟩
  rw [he]
  have hpos : 0 < kws.countP (fun kw => wholeWordSearch kw t) := by
    obtain ⟨kw, hkw, hm⟩ := List.any_eq_true.mp hany
    exact List.countP_pos_iff.mpr ⟨kw, hkw, hm⟩
  exact_mod_cast hpos

/-- Witness for the amended C7: the transcript hits the two distinct cough
variants "cough" and "dry cough", so cough's weight is exactly 2. -/
theorem c7_amended_witness :
    weightOf "cough"
      (exact_keyword_pass expanded_symptom_keywords (pyLower "I cough and I have a dry cough")) = 2 ∧
    1 ≤ weightOf "cough"
      (exact_keyword_pass expanded_symptom_keywords (pyLower "I cough and I have a dry cough")) := by
  have h := c7_amended_weight_counts_variants expanded_symptom_keywords
    (pyLower "I cough and I have a dry cough") "cough"
    ((alookup "cough" expanded_symptom_keywords).getD []) (by decide) (by decide)
  exact ⟨h.1.trans (by decide), h.2 (by decide)⟩

/-! ### Claim C8 -/

/-- Counterexample to claim C8: in the serious-condition detection pass the
keyword "fits" occurs in "benefits" only inside a longer word — no seizure
keyword has a whole-word occurrence — yet substring containment detects the
symptom "seizures". -/
theorem c8_counterexample :
    alookup "seizures" (detect_serious_symptoms "benefits") = some "fits" ∧
    ((alookup "seizures" SYMPTOM_KEYWORDS).getD []).all
      (fun kw => !wholeWordSearch kw (pyLower "benefits")) = true := by
  constructor
  · decide
  · decide

/-- Claim C8 amended: the exact keyword pass is case-insensitive and matches
whole words only — a symptom can gain weight there only if one of its
variants has a whole-word occurrence — but the fallback pass and the
serious-condition analyzer use substring containment, where a keyword inside
a longer word can trigger detection. -/
theorem c8_amended_pass1_whole_word (lexicon : List (String × List String))
    (t sym : String) (kws : List String)
    (hnd : (lexicon.map Prod.fst).Nodup) (hmem : (sym, kws) ∈ lexicon)
    (hpos : 0 < weightOf sym (exact_keyword_pass lexicon t)) :
    kws.any (fun kw => wholeWordSearch kw t) = true := by
  by_contra h
  have hall : kws.countP (fun kw => wholeWordSearch kw t) = 0 := by
    rw [List.countP_eq_zero]
    intro kw hkw
    intro hm
    exact h (List.any_eq_true.mpr ⟨kw, hkw, hm⟩)
  rw [exact_keyword_pass_weight t hnd hmem, hall] at hpos
  simp at hpos

/-- Witness for the amended C8 at a transcript with a genuine whole-word hit. -/
theorem c8_amended_witness :
    ((alookup "dizziness" expanded_symptom_keywords).getD []).any
      (fun kw => wholeWordSearch kw (pyLower "I feel dizzy today")) = true :=
  c8_amended_pass1_whole_word expanded_symptom_keywords (pyLower "I feel dizzy today")
    "dizziness" ((alookup "dizziness" expanded_symptom_keywords).getD [])
    (by decide) (by decide) (by decide)

/-! ### Claim C4 -/

/-- Claim C4: for every non-empty strategy output set (a positive accumulated
maximum, which the always-positive Bayesian posteriors guarantee in the real
pipeline, and nonnegative strategy-local scores), the consolidation engine
divides every accumulated score by the maximum accumulated score, so the
normalized scores have maximum exactly 1 — attained by some condition — and
after the vomit/nausea override rules every score of the final ranking still
lies in [0, 1]. -/
theorem c4_consolidation_normalization (r : ConsolidateResults)
    (hnn : nonnegResults r = true)
    (hne : consolidate_accumulate r ≠ [])
    (hpos : 0 < maxValues (consolidate_accumulate r)) :
    maxValues (consolidate_normalized r) = 1 ∧
    maxValues (consolidate_normalized r) ∈ (consolidate_normalized r).map Prod.snd ∧
    (consolidate_diagnoses r).all (fun p => decide (0 ≤ p.2) && decide (p.2 ≤ 1)) = true := by
  have hnneg := consolidate_accumulate_nonneg r hnn
  have hnorm1 : maxValues (consolidate_normalized r) = 1 := by
    unfold consolidate_normalized
    rw [maxValues_map_div hpos _ hne]
    exact div_self (ne_of_gt hpos)
  have hbounds : ∀ p ∈ consolidate_normalized r, 0 ≤ p.2 ∧ p.2 ≤ 1 := by
    intro p hp
    unfold consolidate_normalized at hp
    obtain ⟨q, hq, rfl⟩ := List.mem_map.mp hp
    refine ⟨div_nonneg (hnneg q hq) (le_of_lt hpos), ?_⟩
    rw [div_le_one hpos]
    exact le_maxValues q hq
  refine ⟨hnorm1, ?_, ?_⟩
  · apply maxValues_nonempty_mem
    unfold consolidate_normalized
    simp only [ne_eq, List.map_eq_nil_iff]
    exact hne
  · rw [List.all_eq_true]
    intro p hp
    have hp2 : p ∈ consolidate_rebalance r.detected_symptoms (consolidate_normalized r) := by
      unfold consolidate_diagnoses at hp
      exact (sortDesc_perm _).mem_iff.mp hp
    have hdigb : ∀ cf ∈ digestive_conditions, cf.2 ≤ 1 := by decide
    have hreb : ∀ p ∈ consolidate_rebalance r.detected_symptoms (consolidate_normalized r),
        0 ≤ p.2 ∧ p.2 ≤ 1 := by
      unfold consolidate_rebalance
      by_cases htrig : "vomit" ∈ r.detected_symptoms ∨ "nausea" ∈ r.detected_symptoms
      · rw [if_pos htrig]
        have hdig : ∀ p ∈ digestive_conditions.foldl
            (fun a cf => updateKey (fun v => max v cf.2) cf.1 a) (consolidate_normalized r),
            0 ≤ p.2 ∧ p.2 ≤ 1 := by
          refine foldl_inv _ (fun p => 0 ≤ p.2 ∧ p.2 ≤ 1) _ _ ?_ hbounds
          intro a cf hcf ha
          have hg : ∀ v, (0 ≤ v ∧ v ≤ 1) → (0 ≤ max v cf.2 ∧ max v cf.2 ≤ 1) := by
            intro v hv
            exact ⟨le_trans hv.1 (le_max_left v cf.2), max_le hv.2 (hdigb cf hcf)⟩
          exact @updateKey_inv (fun v => 0 ≤ v ∧ v ≤ 1) (fun v => max v cf.2) cf.1 a hg ha
        refine foldl_inv _ (fun p => 0 ≤ p.2 ∧ p.2 ≤ 1) _ _ ?_ hdig
        intro a c hc ha
        have hg : ∀ v, (0 ≤ v ∧ v ≤ 1) → (0 ≤ v * (0.5 : Rat) ∧ v * (0.5 : Rat) ≤ 1) := by
          intro v hv
          constructor
          · exact mul_nonneg hv.1 (by norm_num)
          · nlinarith [hv.1, hv.2]
        exact @updateKey_inv (fun v => 0 ≤ v ∧ v ≤ 1) (fun v => v * (0.5 : Rat)) c a hg ha
      · rw [if_neg htrig]
        exact hbounds
    have hpb := hreb p hp2
    simp only [Bool.and_eq_true]
    exact ⟨decide_eq_true hpb.1, decide_eq_true hpb.2⟩

/-- Witness for C4 at a concrete strategy output set: one Bayesian entry of
probability 0.5, so the single accumulated score 0.1 normalizes to exactly 1. -/
theorem c4_witness :
    nonnegResults c4_input = true ∧
    consolidate_accumulate c4_input ≠ [] ∧
    0 < maxValues (consolidate_accumulate c4_input) ∧
    maxValues (consolidate_normalized c4_input) = 1 ∧
    (consolidate_diagnoses c4_input).all (fun p => decide (0 ≤ p.2) && decide (p.2 ≤ 1)) = true := by
  refine ⟨by decide, by decide, by decide, ?_, ?_⟩
  · exact (c4_consolidation_normalization c4_input (by decide) (by decide) (by decide)).1
  · exact (c4_consolidation_normalization c4_input (by decide) (by decide) (by decide)).2.2

/-! ### Claim C5 -/

/-- Counterexample to claim C5: a consolidation input with "nausea" among the
detected symptoms in which the gastrointestinal-category condition
peptic_ulcer_disease — whose id is not one of the eight hard-coded floor
ids — keeps its low score 0.25 < 0.9, while the cardiac-category condition
atrial_fibrillation — not one of the three hard-coded heart ids — keeps score
1 and is ranked first, above every gastrointestinal condition. -/
theorem c5_counterexample :
    "nausea" ∈ c5_input.detected_symptoms ∧
    bert_condition_category "peptic_ulcer_disease" = some "Gastrointestinal Disorders" ∧
    bert_condition_category "atrial_fibrillation" = some "Cardiovascular Disorders" ∧
    alookup "peptic_ulcer_disease" (consolidate_diagnoses c5_input) = some (1/4 : Rat) ∧
    (1/4 : Rat) < 9/10 ∧
    (consolidate_diagnoses c5_input).head? = some ("atrial_fibrillation", 1) := by
  refine ⟨by decide, by decide, by decide, by decide, by decide, by decide⟩

/-- Claim C5 amended: when "vomit" or "nausea" is among the detected symptoms,
the override step raises each of the eight hard-coded digestive ids present in
the accumulator to its floor (all floors are ≥ 0.9) and halves each of the
three hard-coded heart ids present; consequently, for scores in [0, 1], any
floored digestive condition ends strictly above any of those three heart
conditions.  Conditions outside these two fixed id lists — gastrointestinal-
or cardiac-category or not — are untouched. -/
theorem c5_amended_rebalance (acc : List (String × Rat)) (detected : List String)
    (c : String) (f : Rat) (hcf : (c, f) ∈ digestive_conditions)
    (heart : String) (hheart : heart ∈ heart_conditions)
    (dv hv : Rat)
    (hlookd : alookup c acc = some dv)
    (hlookh : alookup heart acc = some hv)
    (hb : ∀ p ∈ acc, p.2 ≤ 1)
    (htrig : "vomit" ∈ detected ∨ "nausea" ∈ detected) :
    alookup c (consolidate_rebalance detected acc) = some (max dv f) ∧
    alookup heart (consolidate_rebalance detected acc) = some (hv * (0.5 : Rat)) ∧
    (9/10 : Rat) ≤ f ∧
    hv * (0.5 : Rat) < max dv f := by
  have hdnd : (digestive_conditions.map Prod.fst).Nodup := by decide
  have hhnd : heart_conditions.Nodup := by decide
  have hdh : ∀ cf ∈ digestive_conditions, ∀ h ∈ heart_conditions, cf.1 ≠ h := by decide
  have hfl : ∀ cf ∈ digestive_conditions, (9/10 : Rat) ≤ cf.2 := by decide
  unfold consolidate_rebalance
  rw [if_pos htrig]
  have hfloor_c : alookup c (digestive_conditions.foldl
      (fun a cf => updateKey (fun v => max v cf.2) cf.1 a) acc) = some (max dv f) := by
    rw [alookup_foldl_floor_mem digestive_conditions c f hdnd hcf acc, hlookd]
    rfl
  have hfloor_h : alookup heart (digestive_conditions.foldl
      (fun a cf => updateKey (fun v => max v cf.2) cf.1 a) acc) = some hv := by
    rw [alookup_foldl_floor_not_mem digestive_conditions heart
      (fun cf hcf2 => hdh cf hcf2 heart hheart) acc]
    exact hlookh
  refine ⟨?_, ?_, hfl (c, f) hcf, ?_⟩
  · rw [alookup_foldl_halve_not_mem heart_conditions c
      (fun c' hc' => Ne.symm (hdh (c, f) hcf c' hc')) _]
    exact hfloor_c
  · rw [alookup_foldl_halve_mem heart_conditions heart hhnd hheart _, hfloor_h]
    rfl
  · have hhv1 : hv ≤ 1 := hb (heart, hv) (alookup_mem hlookh)
    have h910 : (9/10 : Rat) ≤ f := hfl (c, f) hcf
    have hmax : f ≤ max dv f := le_max_right dv f
    nlinarith [hhv1, h910, hmax]

/-- Witness for the amended C5: gastroenteritis at 0.5 is floored to 0.99 and
myocardial_infarction at 1 is halved to 0.5, landing strictly below it. -/
theorem c5_amended_witness :
    alookup "gastroenteritis" (consolidate_rebalance ["nausea"] c5_witness_acc) =
      some (max (0.5 : Rat) (0.99 : Rat)) ∧
    alookup "myocardial_infarction" (consolidate_rebalance ["nausea"] c5_witness_acc) =
      some ((1 : Rat) * (0.5 : Rat)) ∧
    (9/10 : Rat) ≤ (0.99 : Rat) ∧
    (1 : Rat) * (0.5 : Rat) < max (0.5 : Rat) (0.99 : Rat) :=
  c5_amended_rebalance c5_witness_acc ["nausea"] "gastroenteritis" (0.99 : Rat) (by decide)
    "myocardial_infarction" (by decide) (0.5 : Rat) 1 (by decide) (by decide) (by decide)
    (Or.inr (by decide))
